import Mathlib

/-!
# Scan server: ingestion handlers, realtime rooms and change-feed listener

A shallow embedding of `server/src/routes/tracking.js` and
`server/src/services/socketService.js`.

* JavaScript values (request bodies, event payloads, notification payloads) are `JVal`.
* Every call that leaves the process (store queries and inserts, the clock, the
  user-agent parser, the geo lookup, the UUID generator, token verification) is an
  input of the handler; its result is an `Await` value or a plain function.
* An HTTP handler returns the trace of its effects, in program order.
* The Socket.IO hub is a state (`Hub`) with one step per socket event.
* The analytics functions of `server/src/routes/analytics.js` count into tables of
  counters (`Counts`).
* Identifiers (campaign, QR code, form, row ids) are represented by their text, which
  is what the room key interpolation `campaign:${id}` uses.
-/

namespace ScanServer

/-! ## JavaScript values -/

/-- JavaScript values. Numbers are restricted to integers. -/
inductive JVal where
  | undefined
  | null
  | bool (b : Bool)
  | num (n : Int)
  | str (s : String)
  | arr (xs : List JVal)
  | obj (kvs : List (String × JVal))

namespace JVal

/-- JavaScript truthiness (`!x`, `x || y`, `filter(Boolean)`). -/
def truthy : JVal → Bool
  | undefined => false
  | null => false
  | bool b => b
  | num n => n != 0
  | str s => s != ""
  | arr _ => true
  | obj _ => true

/-- The expression `a || b`. -/
def orElse (a b : JVal) : JVal :=
  if a.truthy then a else b

/-- Own enumerable properties, in order, as copied by object spread `{...v}`
(a string spreads to its characters, indexed from 0). -/
def ownProps : JVal → List (String × JVal)
  | obj kvs => kvs
  | arr xs => xs.enum.map (fun p => (toString p.1, p.2))
  | str s => s.data.enum.map (fun p => (toString p.1, str (String.singleton p.2)))
  | _ => []

/-- Assignment of property `k` in an object literal under construction: an existing
key keeps its position and takes the new value, a new key is appended. -/
def setProp (o : List (String × JVal)) (k : String) (v : JVal) : List (String × JVal) :=
  match o with
  | [] => [(k, v)]
  | (k', v') :: rest => if k' = k then (k, v) :: rest else (k', v') :: setProp rest k v

/-- Value of property `k` in a property list (`none` when the key is absent). -/
def lookupProp (o : List (String × JVal)) (k : String) : Option JVal :=
  o.lookup k

/-- Property read `v.k` for the property names the handlers read: `none` is the
`TypeError` raised on `undefined` and `null`; a missing property is `undefined`. -/
def get (v : JVal) (k : String) : Option JVal :=
  match v with
  | undefined => none
  | null => none
  | obj kvs => some ((lookupProp kvs k).getD undefined)
  | _ => some undefined

/-- Optional chaining `v?.k`: `undefined` on `undefined` and `null`. -/
def getOpt (v : JVal) (k : String) : JVal :=
  match v with
  | obj kvs => (lookupProp kvs k).getD undefined
  | _ => undefined

mutual
/-- String coercion of a template literal `${v}`. -/
def toText : JVal → String
  | undefined => "undefined"
  | null => "null"
  | bool true => "true"
  | bool false => "false"
  | num n => toString n
  | str s => s
  | arr xs => joinText xs
  | obj _ => "[object Object]"
/-- The text of an array: `Array.prototype.join(",")`, with `undefined` and `null`
elements rendered empty. -/
def joinText : List JVal → String
  | [] => ""
  | [x] => elemText x
  | x :: y :: rest => elemText x ++ "," ++ joinText (y :: rest)
/-- The text of one array element inside `join`. -/
def elemText : JVal → String
  | undefined => ""
  | null => ""
  | v => toText v
end

mutual
/-- Deep merge, in the words of the spec ("deep-merged ..., with derived keys taking
precedence on conflict"): when both sides are objects the keys are merged, a key on
both sides is merged recursively, and otherwise the second (derived) value wins. -/
def deepMerge (a : JVal) : JVal → JVal
  | obj b =>
    match a with
    | obj akvs => obj (mergeProps akvs b)
    | _ => obj b
  | b => b
/-- Merge of the properties `b` into the property list `akvs`, key by key. -/
def mergeProps (akvs : List (String × JVal)) : List (String × JVal) → List (String × JVal)
  | [] => akvs
  | (k, v) :: rest =>
    mergeProps
      (setProp akvs k
        (match lookupProp akvs k with
         | some av => deepMerge av v
         | none => v))
      rest
end

/-- A JavaScript `string | undefined` as a value. -/
def ofOptString : Option String → JVal
  | some s => str s
  | none => undefined

end JVal

/-! ## Enrichment: user-agent record and browser fingerprint -/

/-- The `browser` part of a parsed user agent. -/
structure Browser where
  name : Option String
  version : Option String

/-- The `os` part of a parsed user agent. -/
structure OS where
  name : Option String
  version : Option String

/-- The `device` part of a parsed user agent. -/
structure Device where
  type : Option String
  vendor : Option String
  model : Option String

/-- The record returned by `UAParser(userAgent)`; an unknown field is `undefined`. -/
structure UAResult where
  browser : Browser
  os : OS
  device : Device

/-- The object `ua.browser`. -/
def Browser.toJVal (b : Browser) : JVal :=
  .obj [("name", .ofOptString b.name), ("version", .ofOptString b.version)]

/-- The object `ua.os`. -/
def OS.toJVal (o : OS) : JVal :=
  .obj [("name", .ofOptString o.name), ("version", .ofOptString o.version)]

/-- The object `ua.device`. -/
def Device.toJVal (d : Device) : JVal :=
  .obj [("type", .ofOptString d.type), ("vendor", .ofOptString d.vendor),
    ("model", .ofOptString d.model)]

/-- The callback `Boolean` on a `string | undefined`: true on a non-empty string. -/
def isTruthy : Option String → Bool
  | some s => s != ""
  | none => false

/-- The text of one element in `Array.prototype.join`: `undefined` is empty. -/
def elementText : Option String → String
  | some s => s
  | none => ""

/-- The method `Array.prototype.join(sep)`. -/
def join (sep : String) : List (Option String) → String
  | [] => ""
  | [a] => elementText a
  | a :: b :: rest => elementText a ++ sep ++ join sep (b :: rest)

/-- The function `generateBrowserFingerprint(ua)` of `tracking.js`. -/
def generateBrowserFingerprint (ua : UAResult) : String :=
  let components :=
    [ua.browser.name, ua.browser.version, ua.os.name, ua.os.version,
      ua.device.vendor, ua.device.model].filter isTruthy
  join "|" components

/-- The six fingerprint components of a user agent, in the order of the spec. -/
def fingerprintValues (ua : UAResult) : List (Option String) :=
  [ua.browser.name, ua.browser.version, ua.os.name, ua.os.version,
    ua.device.vendor, ua.device.model]

/-- The values that are present and non-empty, in order. -/
def nonEmptyValues (vs : List (Option String)) : List String :=
  vs.filterMap (fun v => match v with
    | some s => if s = "" then none else some s
    | none => none)

/-- The metadata object literal of the `scan_events` insert:
`{ ...metadata, browser: ua.browser, os: ua.os, device: ua.device }`. -/
def scanMetadata (metadata : JVal) (ua : UAResult) : JVal :=
  .obj
    (JVal.setProp
      (JVal.setProp
        (JVal.setProp metadata.ownProps "browser" ua.browser.toJVal)
        "os" ua.os.toJVal)
      "device" ua.device.toJVal)

/-- The derived record `{browser, os, device}` of the spec. -/
def derivedRecord (ua : UAResult) : JVal :=
  .obj [("browser", ua.browser.toJVal), ("os", ua.os.toJVal), ("device", ua.device.toJVal)]

/-! ## Store rows and awaited results -/

/-- Outcome of awaiting a store call: the client resolves to `{ data, error }`
(`null` is `none`), or the promise rejects and control passes to `catch`. -/
inductive Await (α : Type) where
  | resolved (data : Option α) (error : Option String)
  | rejected

/-- The embedded `campaigns (id, user_id)` of a resolved QR code or form. -/
structure CampaignRef where
  id : String
  user_id : String

/-- A row of `qr_codes` as resolved by slug, with its embedded campaign (the campaign
reference of a QR code is mandatory); `expires_at` is `null` or a timestamp text. -/
structure QrCode where
  id : String
  expires_at : Option String
  campaigns : CampaignRef

/-- A row of `forms` as resolved by id, with its embedded campaign. -/
structure Form where
  id : String
  campaigns : CampaignRef

/-- The object returned by `geoip.lookup(ip)`. -/
structure Location where
  city : String
  region : String
  country : String

/-- The object `location`. -/
def Location.toJVal (l : Location) : JVal :=
  .obj [("city", .str l.city), ("region", .str l.region), ("country", .str l.country)]

/-- The record passed to `from("scan_events").insert`. -/
structure ScanInsert where
  qr_code_id : String
  campaign_id : String
  user_uuid : JVal
  ip_address : Option String
  user_agent : Option String
  browser_fingerprint : String
  location_data : Option Location
  metadata : JVal

/-- The stored `scan_events` row returned by `.select().single()`. -/
structure ScanRow extends ScanInsert where
  id : String
  created_at : String

/-- The record passed to `from("form_submissions").insert`. -/
structure SubmissionInsert where
  form_id : String
  qr_code_id : JVal
  user_uuid : JVal
  data : JVal
  metadata : JVal

/-- The stored `form_submissions` row returned by `.select().single()`. -/
structure SubmissionRow extends SubmissionInsert where
  id : String
  created_at : String

/-! ## Ingestion handlers -/

/-- One effect of an HTTP handler, in program order. -/
inductive Effect where
  | insertScan (row : ScanInsert) (result : Await ScanRow)
  | insertSubmission (row : SubmissionInsert) (result : Await SubmissionRow)
  | emit (room : String) (event : String) (payload : JVal)
  | respond (status : Nat) (body : JVal)

/-- The room key `campaign:${campaignId}`. -/
def roomKey (campaignId : String) : String :=
  "campaign:" ++ campaignId

/-- The body `{ error: message }`. -/
def errorBody (message : JVal) : JVal :=
  .obj [("error", message)]

/-- A destructuring default `metadata = {}`: it applies to `undefined` only. -/
def withDefault (v : JVal) : JVal :=
  match v with
  | .undefined => .obj []
  | m => m

/-- The request of `POST /track/:slug`: the slug parameter, the body fields (`undefined`
when absent), the address `req.ip || req.connection.remoteAddress` and the
`User-Agent` header. -/
structure ScanRequest where
  slug : String
  userUuid : JVal
  metadata : JVal
  ip : Option String
  userAgent : Option String

/-- What `POST /track/:slug` reads from outside the process. -/
structure ScanWorld where
  lookupQr : String → Await QrCode
  now : Int
  parseDate : String → Option Int
  parseUA : Option String → UAResult
  geoLookup : Option String → Option Location
  generateUUID : String
  insertScan : ScanInsert → Await ScanRow

/-- The test `qrCode.expires_at && new Date(qrCode.expires_at) < new Date()`; an
unparsable text is an invalid date, which compares false. -/
def isExpired (w : ScanWorld) (qrCode : QrCode) : Bool :=
  match qrCode.expires_at with
  | none => false
  | some s =>
    if s = "" then false
    else
      match w.parseDate s with
      | some t => decide (t < w.now)
      | none => false

/-- The expression `ua.device?.type || "desktop"`. -/
def deviceType (ua : UAResult) : String :=
  match ua.device.type with
  | some s => if s = "" then "desktop" else s
  | none => "desktop"

/-- The expression `location?.city`. -/
def cityOf (location : Option Location) : JVal :=
  match location with
  | some l => .str l.city
  | none => .undefined

/-- The record that the handler passes to the `scan_events` insert for a resolved QR
code. -/
def scanInsertOf (w : ScanWorld) (req : ScanRequest) (qrCode : QrCode) : ScanInsert :=
  let metadata := withDefault req.metadata
  let ip := req.ip
  let userAgent := req.userAgent
  let ua := w.parseUA userAgent
  let location := w.geoLookup ip
  let finalUserUuid := req.userUuid.orElse (.str w.generateUUID)
  { qr_code_id := qrCode.id
    campaign_id := qrCode.campaigns.id
    user_uuid := finalUserUuid
    ip_address := ip
    user_agent := userAgent
    browser_fingerprint := generateBrowserFingerprint ua
    location_data := location
    metadata := scanMetadata metadata ua }

/-- The handler `router.post("/:slug")` of `tracking.js`. -/
def recordScan (w : ScanWorld) (req : ScanRequest) : List Effect :=
  match w.lookupQr req.slug with
  | .rejected => [.respond 500 (errorBody (.str "Internal server error"))]
  | .resolved _ (some _) => [.respond 404 (errorBody (.str "QR code not found"))]
  | .resolved none none => [.respond 404 (errorBody (.str "QR code not found"))]
  | .resolved (some qrCode) none =>
    if isExpired w qrCode then
      [.respond 410 (errorBody (.str "QR code has expired"))]
    else
      let ua := w.parseUA req.userAgent
      let location := w.geoLookup req.ip
      let finalUserUuid := req.userUuid.orElse (.str w.generateUUID)
      let row := scanInsertOf w req qrCode
      match w.insertScan row with
      | .rejected =>
        [.insertScan row .rejected, .respond 500 (errorBody (.str "Internal server error"))]
      | .resolved data (some scanError) =>
        [.insertScan row (.resolved data (some scanError)),
          .respond 500 (errorBody (.str "Failed to record scan"))]
      | .resolved none none =>
        [.insertScan row (.resolved none none),
          .respond 500 (errorBody (.str "Internal server error"))]
      | .resolved (some scanEvent) none =>
        [.insertScan row (.resolved (some scanEvent) none),
          .emit (roomKey qrCode.campaigns.id) "scan_event"
            (.obj [("type", .str "scan"),
              ("qrCodeId", .str qrCode.id),
              ("campaignId", .str qrCode.campaigns.id),
              ("timestamp", .str scanEvent.created_at),
              ("location", cityOf location),
              ("device", .str (deviceType ua))]),
          .respond 200
            (.obj [("success", .bool true),
              ("userUuid", finalUserUuid),
              ("scanId", .str scanEvent.id)])]

/-- The request of `POST /track/form/:formId`. -/
structure SubmissionRequest where
  formId : String
  data : JVal
  userUuid : JVal
  qrCodeId : JVal
  metadata : JVal

/-- What `POST /track/form/:formId` reads from outside the process. -/
structure SubmissionWorld where
  lookupForm : String → Await Form
  insertSubmission : SubmissionInsert → Await SubmissionRow

/-- The record that the handler passes to the `form_submissions` insert. -/
def submissionInsertOf (req : SubmissionRequest) : SubmissionInsert :=
  { form_id := req.formId
    qr_code_id := req.qrCodeId
    user_uuid := req.userUuid
    data := req.data
    metadata := withDefault req.metadata }

/-- The handler `router.post("/form/:formId")` of `tracking.js`. -/
def recordSubmission (w : SubmissionWorld) (req : SubmissionRequest) : List Effect :=
  match w.lookupForm req.formId with
  | .rejected => [.respond 500 (errorBody (.str "Internal server error"))]
  | .resolved _ (some _) => [.respond 404 (errorBody (.str "Form not found"))]
  | .resolved none none => [.respond 404 (errorBody (.str "Form not found"))]
  | .resolved (some form) none =>
    let row := submissionInsertOf req
    match w.insertSubmission row with
    | .rejected =>
      [.insertSubmission row .rejected,
        .respond 500 (errorBody (.str "Internal server error"))]
    | .resolved data (some message) =>
      [.insertSubmission row (.resolved data (some message)),
        .respond 400 (errorBody (.str message))]
    | .resolved none none =>
      [.insertSubmission row (.resolved none none),
        .respond 500 (errorBody (.str "Internal server error"))]
    | .resolved (some submission) none =>
      [.insertSubmission row (.resolved (some submission) none),
        .emit (roomKey form.campaigns.id) "form_submission"
          (.obj [("type", .str "form_submission"),
            ("formId", .str req.formId),
            ("campaignId", .str form.campaigns.id),
            ("timestamp", .str submission.created_at),
            ("data", req.data)]),
        .respond 200
          (.obj [("success", .bool true),
            ("submissionId", .str submission.id)])]

/-! ## Realtime hub (`socketService.js`) -/

/-- One message sent to one socket. -/
structure Delivery where
  socket : Nat
  event : String
  payload : JVal

/-- The Socket.IO server state the handlers use: the accepted sockets with the user id
bound by the middleware (`socket.userId`), and the room membership table as pairs of
room key and socket id. -/
structure Hub where
  sockets : List (Nat × Option String)
  rooms : List (String × Nat)

/-- The hub with no socket and no room member. -/
def Hub.empty : Hub :=
  { sockets := [], rooms := [] }

/-- The sockets currently in `room`. -/
def Hub.members (h : Hub) (room : String) : List Nat :=
  (h.rooms.filter (fun m => decide (m.1 = room))).map (fun m => m.2)

/-- The call `io.to(room).emit(event, payload)`: one message per member of the room. -/
def Hub.publish (h : Hub) (room event : String) (payload : JVal) : List Delivery :=
  (h.members room).map (fun sid => { socket := sid, event := event, payload := payload })

/-- The call `socket.join(room)`; a room is a set, joining twice adds nothing. -/
def Hub.join (h : Hub) (sid : Nat) (room : String) : Hub :=
  if (room, sid) ∈ h.rooms then h else { h with rooms := h.rooms ++ [(room, sid)] }

/-- The call `socket.leave(room)`. -/
def Hub.leave (h : Hub) (sid : Nat) (room : String) : Hub :=
  { h with rooms := h.rooms.filter (fun m => !(decide (m.1 = room) && decide (m.2 = sid))) }

/-- The removal of a disconnected socket from the server and from all its rooms. -/
def Hub.remove (h : Hub) (sid : Nat) : Hub :=
  { sockets := h.sockets.filter (fun s => !(decide (s.1 = sid)))
    rooms := h.rooms.filter (fun m => !(decide (m.2 = sid))) }

/-- The claims of a verified token that the middleware reads. -/
structure Decoded where
  userId : Option String

/-- Outcome of the middleware: `next(new Error(message))` or `next()` with the user id
bound to the socket. -/
inductive AuthResult where
  | error (message : String)
  | next (userId : Option String)

/-- The middleware `io.use` of `setupSocketIO`; `verify` is `jwt.verify` with the
server secret, `none` when it throws. -/
def authenticate (verify : String → Option Decoded) (token : Option String) : AuthResult :=
  match token with
  | none => .error "Authentication error"
  | some t =>
    if t = "" then .error "Authentication error"
    else
      match verify t with
      | some decoded => .next decoded.userId
      | none => .error "Authentication error"

/-- The row selected by the ownership query (`select("id")`). -/
structure CampaignRow where
  id : String

/-- The ownership query of `join_campaign`, a function of the campaign id and the user
id it filters on. -/
abbrev OwnershipQuery := String → Option String → Await CampaignRow

/-- The handler `socket.on("join_campaign")` for a socket bound to `userId`. -/
def joinCampaign (query : OwnershipQuery) (h : Hub) (sid : Nat) (userId : Option String)
    (campaignId : String) : Hub × List Delivery :=
  match query campaignId userId with
  | .rejected =>
    (h, [{ socket := sid, event := "error",
           payload := .obj [("message", .str "Failed to join campaign")] }])
  | .resolved _ (some _) =>
    (h, [{ socket := sid, event := "error",
           payload := .obj [("message", .str "Campaign not found")] }])
  | .resolved none none =>
    (h, [{ socket := sid, event := "error",
           payload := .obj [("message", .str "Campaign not found")] }])
  | .resolved (some _) none =>
    (h.join sid (roomKey campaignId),
      [{ socket := sid, event := "joined_campaign",
         payload := .obj [("campaignId", .str campaignId)] }])

/-- The handler `socket.on("leave_campaign")`. -/
def leaveCampaign (h : Hub) (sid : Nat) (campaignId : String) : Hub × List Delivery :=
  (h.leave sid (roomKey campaignId),
    [{ socket := sid, event := "left_campaign",
       payload := .obj [("campaignId", .str campaignId)] }])

/-- What reaches the server from a client socket. -/
inductive SocketEvent where
  | connect (sid : Nat) (token : Option String)
  | join_campaign (sid : Nat) (campaignId : String) (query : OwnershipQuery)
  | leave_campaign (sid : Nat) (campaignId : String)
  | disconnect (sid : Nat)

/-- One step of `setupSocketIO`: the middleware runs on a handshake, and the handlers
registered in `io.on("connection")` run for accepted sockets only. -/
def step (verify : String → Option Decoded) (h : Hub) : SocketEvent → Hub × List Delivery
  | .connect sid token =>
    match h.sockets.lookup sid with
    | some _ => (h, [])
    | none =>
      match authenticate verify token with
      | .error _ => (h, [])
      | .next userId => ({ h with sockets := h.sockets ++ [(sid, userId)] }, [])
  | .join_campaign sid campaignId query =>
    match h.sockets.lookup sid with
    | none => (h, [])
    | some userId => joinCampaign query h sid userId campaignId
  | .leave_campaign sid campaignId =>
    match h.sockets.lookup sid with
    | none => (h, [])
    | some _ => leaveCampaign h sid campaignId
  | .disconnect sid => (h.remove sid, [])

/-- The hub after a sequence of socket events. -/
def run (verify : String → Option Decoded) (h : Hub) : List SocketEvent → Hub
  | [] => h
  | e :: es => run verify (step verify h e).1 es

/-- The messages that the emits of a handler trace put on the sockets of the hub. -/
def deliveries (h : Hub) (trace : List Effect) : List Delivery :=
  trace.flatMap (fun e =>
    match e with
    | .emit room event payload => h.publish room event payload
    | _ => [])

/-- The payloads of the messages named `event` that socket `sid` receives. -/
def received (ds : List Delivery) (sid : Nat) (event : String) : List JVal :=
  (ds.filter (fun d => decide (d.socket = sid) && decide (d.event = event))).map
    (fun d => d.payload)

/-! ## Change-feed listener (`setupPostgresNotifications`) -/

/-- A notification `msg`; `payload` is `JSON.parse(msg.payload)`, `none` when it throws. -/
structure Notification where
  channel : String
  payload : Option JVal

/-- The `scan_event` branch of the notification callback; `none` is a `TypeError`
raised while the arguments are evaluated, which the callback catches and logs. -/
def scanEventOf (payload : JVal) : Option Effect := do
  let campaign_id ← payload.get "campaign_id"
  let qr_code_id ← payload.get "qr_code_id"
  let data ← payload.get "data"
  let created_at ← data.get "created_at"
  let location_data ← data.get "location_data"
  let metadata ← data.get "metadata"
  pure (.emit ("campaign:" ++ campaign_id.toText) "scan_event"
    (.obj [("type", .str "scan"),
      ("campaignId", campaign_id),
      ("qrCodeId", qr_code_id),
      ("timestamp", created_at),
      ("location", location_data.getOpt "city"),
      ("device", ((metadata.getOpt "device").getOpt "type").orElse (.str "desktop"))]))

/-- The `form_submission` branch of the notification callback. -/
def formSubmissionOf (payload : JVal) : Option Effect := do
  let campaign_id ← payload.get "campaign_id"
  let form_id ← payload.get "form_id"
  let data ← payload.get "data"
  let created_at ← data.get "created_at"
  pure (.emit ("campaign:" ++ campaign_id.toText) "form_submission"
    (.obj [("type", .str "form_submission"),
      ("campaignId", campaign_id),
      ("formId", form_id),
      ("timestamp", created_at)]))

/-- The callback `client.on("notification")`. -/
def onNotification (msg : Notification) : List Effect :=
  match msg.payload with
  | none => []
  | some payload =>
    if msg.channel = "scan_event" then (scanEventOf payload).toList
    else if msg.channel = "form_submission" then (formSubmissionOf payload).toList
    else []

/-- The names that the `pg` package exports to `import("pg")`; `createClient` is not
among them. -/
def pgExports : List String :=
  ["default", "Client", "Pool", "Connection", "Query", "Result", "DatabaseError",
    "TypeOverrides", "defaults", "types", "escapeIdentifier", "escapeLiteral"]

/-- The function `setupPostgresNotifications`: whether the notification callback gets
registered. `exports` are the names of the imported module, and `connects` tells whether
`client.connect()` and the two `LISTEN` queries succeed. A name destructured from a module
that does not export it is `undefined`; the call `createClient(...)` then throws a
`TypeError`, and the `catch` logs it before `client.on("notification")` is reached. -/
def setupPostgresNotifications (exports : List String) (connects : Bool) : Bool :=
  if "createClient" ∈ exports then connects else false

/-- The effect of a notification on the server as `setupSocketIO` starts it, with the `pg`
package: the callback runs only if the set-up registered it. -/
def listener (connects : Bool) (msg : Notification) : List Effect :=
  if setupPostgresNotifications pgExports connects then onNotification msg else []

/-- The stored scan row as a JSON record. -/
def ScanRow.toJVal (r : ScanRow) : JVal :=
  .obj [("id", .str r.id),
    ("qr_code_id", .str r.qr_code_id),
    ("campaign_id", .str r.campaign_id),
    ("user_uuid", r.user_uuid),
    ("ip_address", match r.ip_address with | some a => .str a | none => .null),
    ("user_agent", match r.user_agent with | some a => .str a | none => .null),
    ("browser_fingerprint", .str r.browser_fingerprint),
    ("location_data", match r.location_data with | some l => l.toJVal | none => .null),
    ("metadata", r.metadata),
    ("created_at", .str r.created_at)]

/-- Modelled from the spec: the store trigger that raises `scan_event` notifications is
not part of the sources. Section 6: the notification carries "a JSON payload with
`campaign_id`, `qr_code_id`/`form_id`, and a nested `data` record mirroring the
persisted row". -/
def scanNotification (row : ScanRow) : Notification :=
  { channel := "scan_event"
    payload := some (.obj [("campaign_id", .str row.campaign_id),
      ("qr_code_id", .str row.qr_code_id),
      ("data", row.toJVal)]) }

/-! ## Auxiliary definitions for the statements -/

/-- Two adjacent characters are not both the separator `|`. -/
def NoPipePair (a b : Char) : Prop :=
  ¬ (a = '|' ∧ b = '|')

/-- The hub after socket `sid` has connected with `token` and sent
`join_campaign(campaignId)`, starting from the empty hub. -/
def hubAfterJoin (verify : String → Option Decoded) (sid : Nat) (token : String)
    (campaignId : String) (query : OwnershipQuery) : Hub :=
  (step verify (step verify Hub.empty (.connect sid (some token))).1
    (.join_campaign sid campaignId query)).1

/-! ## A concrete scenario, used to instantiate the theorems -/

/-- A parsed user agent of a phone browser. -/
def demoUA : UAResult :=
  { browser := { name := some "Chrome", version := some "120.0" }
    os := { name := some "Android", version := none }
    device := { type := some "mobile", vendor := none, model := none } }

/-- A parsed user agent with no known field. -/
def unknownUA : UAResult :=
  { browser := { name := none, version := some "" }
    os := { name := none, version := none }
    device := { type := none, vendor := none, model := none } }

/-- A QR code of campaign 42 with the given expiry. -/
def demoQr (expires_at : Option String) : QrCode :=
  { id := "qr-1", expires_at := expires_at, campaigns := { id := "42", user_id := "u1" } }

/-- A scan request without `userUuid`, whose metadata has a nested `device` object. -/
def demoRequest : ScanRequest :=
  { slug := "abc123"
    userUuid := .undefined
    metadata := .obj [("source", .str "poster"), ("device", .obj [("extra", .str "x")])]
    ip := some "203.0.113.9"
    userAgent := some "Mozilla/5.0" }

/-- The stored row for an inserted record. -/
def demoStored (row : ScanInsert) : ScanRow :=
  { row with id := "scan-1", created_at := "2024-05-01T10:00:00Z" }

/-- A world with the given lookup result and insert behaviour. -/
def demoWorld (lookup : Await QrCode) (insert : ScanInsert → Await ScanRow) : ScanWorld :=
  { lookupQr := fun _ => lookup
    now := 1700000000000
    parseDate := fun s => if s = "2020-01-01T00:00:00Z" then some 1577836800000 else none
    parseUA := fun _ => demoUA
    geoLookup := fun _ => some { city := "Accra", region := "AA", country := "GH" }
    generateUUID := "00000000-0000-4000-8000-000000000001"
    insertScan := insert }

/-- A world in which the QR code of campaign 42 resolves, has no expiry, and the insert
returns the stored row. -/
def demoScanWorld : ScanWorld :=
  demoWorld (.resolved (some (demoQr none)) none) (fun r => .resolved (some (demoStored r)) none)

/-- A form of campaign 7. -/
def demoForm : Form :=
  { id := "form-1", campaigns := { id := "7", user_id := "u1" } }

/-- A submission request. -/
def demoSubmission : SubmissionRequest :=
  { formId := "form-1"
    data := .obj [("email", .str "a@b.c")]
    userUuid := .str "user-9"
    qrCodeId := .undefined
    metadata := .undefined }

/-- A world in which the form resolves and the insert succeeds. -/
def demoSubmissionWorld : SubmissionWorld :=
  { lookupForm := fun _ => .resolved (some demoForm) none
    insertSubmission := fun row =>
      .resolved (some { row with id := "sub-1", created_at := "2024-05-01T10:00:05Z" }) none }

/-- Token verification that accepts one token, of user `u1`. -/
def demoVerify : String → Option Decoded :=
  fun t => if t = "valid-token" then some { userId := some "u1" } else none

/-- An ownership query over a store in which user `u1` owns campaign 42 only. -/
def demoQuery : OwnershipQuery :=
  fun campaignId userId =>
    if campaignId = "42" ∧ userId = some "u1" then .resolved (some { id := "42" }) none
    else .resolved none (some "no rows")

/-- A hub with one accepted socket, of user `u1`, in no room. -/
def demoHub : Hub :=
  { sockets := [(1, some "u1")], rooms := [] }

/-! ## Change-feed notification of a submission -/

/-- The stored submission row as a JSON record. -/
def SubmissionRow.toJVal (r : SubmissionRow) : JVal :=
  .obj [("id", .str r.id),
    ("form_id", .str r.form_id),
    ("qr_code_id", r.qr_code_id),
    ("user_uuid", r.user_uuid),
    ("data", r.data),
    ("metadata", r.metadata),
    ("created_at", .str r.created_at)]

/-- Modelled from the spec: the store trigger that raises `form_submission` notifications
is not part of the sources. Section 6: the notification carries "a JSON payload with
`campaign_id`, `qr_code_id`/`form_id`, and a nested `data` record mirroring the
persisted row"; the campaign is the one the form belongs to. -/
def submissionNotification (campaignId : String) (row : SubmissionRow) : Notification :=
  { channel := "form_submission"
    payload := some (.obj [("campaign_id", .str campaignId),
      ("form_id", .str row.form_id),
      ("data", row.toJVal)]) }

/-! ## Analytics (`analytics.js`) -/

/-- The own properties of a plain object used as a table of counters, in insertion order
(JavaScript lists keys that are array indices first; that changes the order only). A
value is a number, or a text once a name that the object inherits was counted. -/
abbrev Counts := List (String × JVal)

/-- The names of the functions that a plain object inherits from `Object.prototype`,
`constructor` apart. -/
def inheritedFunctions : List String :=
  ["__defineGetter__", "__defineSetter__", "hasOwnProperty", "__lookupGetter__",
    "__lookupSetter__", "isPrototypeOf", "propertyIsEnumerable", "toString", "valueOf",
    "toLocaleString"]

/-- The text into which `+` converts the value that a plain object inherits under `key`
(the prototype object for `__proto__`, a native function otherwise); `none` when the
object inherits nothing under `key`. -/
def inheritedText (key : String) : Option String :=
  if key = "__proto__" then some "[object Object]"
  else if key = "constructor" then some "function Object() \x7b [native code] \x7d"
  else if key ∈ inheritedFunctions then some ("function " ++ key ++ "() \x7b [native code] \x7d")
  else none

/-- The read `acc[key]`: the own property, else the inherited value, else `undefined`.
An inherited value is an object; it stands here as the text `+` converts it into, which
is all that `(acc[key] || 0) + 1` uses of it (it is truthy, and `+` concatenates). -/
def Counts.read (acc : Counts) (key : String) : JVal :=
  match JVal.lookupProp acc key with
  | some v => v
  | none =>
    match inheritedText key with
    | some text => .str text
    | none => .undefined

/-- The expression `(v || 0) + 1`: a number is incremented (also 0, which is falsy), the
other falsy values give 1, and `+` appends `1` to the text of a truthy text or object. -/
def orZeroPlusOne : JVal → JVal
  | .num n => .num (n + 1)
  | .str s => if s = "" then .num 1 else .str (s ++ "1")
  | .bool b => if b then .num 2 else .num 1
  | .undefined => .num 1
  | .null => .num 1
  | .arr xs => .str ((JVal.arr xs).toText ++ "1")
  | .obj _ => .str "[object Object]1"

/-- The write `acc[key] = value` of a number or a text: the setter of `__proto__` ignores
such a value and creates no property; any other key becomes or stays an own property. -/
def Counts.write (acc : Counts) (key : String) (value : JVal) : Counts :=
  if key = "__proto__" then acc else JVal.setProp acc key value

/-- The statement `acc[key] = (acc[key] || 0) + 1`. -/
def increment (acc : Counts) (key : String) : Counts :=
  acc.write key (orZeroPlusOne (acc.read key))

/-- The sum of the values of a table of counters; `none` when a value is not a number. -/
def Counts.total : Counts → Option Int
  | [] => some 0
  | (_, .num n) :: rest => (Counts.total rest).map (fun t => n + t)
  | _ :: _ => none

/-- The local-time fields of a valid `Date`, as returned by `getFullYear`, `getMonth`
(0 to 11), `getDate` and `getHours`. -/
structure LocalTime where
  fullYear : Int
  month : Nat
  date : Nat
  hours : Nat

/-- The text of a number that is `NaN` when the date is invalid. -/
def numberText (n : Option Int) : String :=
  match n with
  | some v => toString v
  | none => "NaN"

/-- The call `s.padStart(2, "0")`. -/
def padStart2 (s : String) : String :=
  String.mk (List.replicate (2 - s.length) '0') ++ s

/-- The key of `groupByTimePeriod` for a date; `none` is an invalid date, whose fields
are all `NaN`. -/
def timeKey (format : String) (date : Option LocalTime) : String :=
  let year := numberText (date.map (fun d => d.fullYear))
  let month := padStart2 (numberText (date.map (fun d => (d.month : Int) + 1)))
  let day := padStart2 (numberText (date.map (fun d => (d.date : Int))))
  let hour := padStart2 (numberText (date.map (fun d => (d.hours : Int))))
  if format = "hour" then
    year ++ "-" ++ month ++ "-" ++ day ++ " " ++ hour ++ ":00"
  else
    year ++ "-" ++ month ++ "-" ++ day

/-- The function `groupByTimePeriod(events, timeframe)`; `createdAt` reads
`event.created_at` and `localTime` is `new Date(text)` in the server's time zone. -/
def groupByTimePeriod {α : Type} (createdAt : α → String)
    (localTime : String → Option LocalTime) (events : List α) (timeframe : String) : Counts :=
  let format := if timeframe = "24h" then "hour" else "day"
  events.foldl
    (fun groups event => increment groups (timeKey format (localTime (createdAt event))))
    []

/-- The comparison of `Set` (SameValueZero): primitives by value, objects and arrays by
identity; the objects of different rows are different objects. -/
def JVal.sameValueZero : JVal → JVal → Bool
  | .undefined, .undefined => true
  | .null, .null => true
  | .bool a, .bool b => a == b
  | .num a, .num b => a == b
  | .str a, .str b => a == b
  | _, _ => false

/-- The call `set.add(v)` on the list of the members of a `Set`. -/
def setAdd (members : List JVal) (v : JVal) : List JVal :=
  if members.any (fun m => m.sameValueZero v) then members else members ++ [v]

/-- The expression `new Set(values).size`. -/
def setSize (values : List JVal) : Nat :=
  (values.foldl setAdd []).length

/-- Rounding of a rational to the nearest integer, ties to the even one. -/
def roundHalfEven (m : ℚ) : ℤ :=
  let f := ⌊m⌋
  let d := m - f
  if d < 1 / 2 then f
  else if 1 / 2 < d then f + 1
  else if f % 2 = 0 then f else f + 1

/-- The double nearest to a rational (binary64, 53 significant bits, ties to even), as a
rational. Overflow and subnormals are left out: the operands here are counts and their
ratios. -/
def roundToDouble (q : ℚ) : ℚ :=
  if q = 0 then 0
  else
    let e := Int.log 2 |q|
    let ulp : ℚ := (2 : ℚ) ^ (e - 52)
    if q < 0 then -((roundHalfEven (|q| / ulp) : ℚ) * ulp)
    else (roundHalfEven (|q| / ulp) : ℚ) * ulp

/-- The division `a / b` of doubles. -/
def doubleDiv (a b : ℚ) : ℚ :=
  roundToDouble (a / b)

/-- The product `a * b` of doubles. -/
def doubleMul (a b : ℚ) : ℚ :=
  roundToDouble (a * b)

/-- The call `Math.round(x)`: the nearest integer, halves rounded up. -/
def mathRound (x : ℚ) : ℤ :=
  ⌊x + 1 / 2⌋

/-- The rate of `calculateAnalytics`:
`totalScans > 0 ? (totalSubmissions / totalScans) * 100 : 0`, and then
`Math.round(conversionRate * 100) / 100`, in double arithmetic. -/
def conversionRateOf (totalSubmissions totalScans : Nat) : ℚ :=
  let conversionRate : ℚ :=
    if totalScans > 0 then doubleMul (doubleDiv totalSubmissions totalScans) 100 else 0
  doubleDiv (mathRound (doubleMul conversionRate 100)) 100

/-- The property key `event.metadata?.device?.type || "desktop"` of the device breakdown. -/
def deviceKey (event : ScanRow) : String :=
  (((event.metadata.getOpt "device").getOpt "type").orElse (.str "desktop")).toText

/-- The property key `event.location_data?.city || "Unknown"` of the location breakdown. -/
def cityKey (event : ScanRow) : String :=
  ((cityOf event.location_data).orElse (.str "Unknown")).toText

/-- The `totals` of the analytics; the rate is the exact value of the double. -/
structure Totals where
  scans : Nat
  uniqueUsers : Nat
  submissions : Nat
  conversionRate : ℚ

/-- The `timeline` of the analytics. -/
structure Timeline where
  scans : Counts
  submissions : Counts

/-- The `breakdowns` of the analytics. -/
structure Breakdowns where
  devices : Counts
  locations : Counts

/-- The object returned by `calculateAnalytics`. -/
structure Analytics where
  totals : Totals
  timeline : Timeline
  breakdowns : Breakdowns

/-- The function `calculateAnalytics(scanEvents, formSubmissions, timeframe)`. -/
def calculateAnalytics (localTime : String → Option LocalTime) (scanEvents : List ScanRow)
    (formSubmissions : List SubmissionRow) (timeframe : String) : Analytics :=
  let totalScans := scanEvents.length
  let uniqueUsers := setSize (scanEvents.map (fun e => e.user_uuid))
  let totalSubmissions := formSubmissions.length
  let timeGroups := groupByTimePeriod (fun e => e.created_at) localTime scanEvents timeframe
  let submissionGroups :=
    groupByTimePeriod (fun e => e.created_at) localTime formSubmissions timeframe
  let deviceBreakdown :=
    scanEvents.foldl (fun acc event => increment acc (deviceKey event)) []
  let locationBreakdown :=
    scanEvents.foldl (fun acc event => increment acc (cityKey event)) []
  { totals :=
      { scans := totalScans
        uniqueUsers := uniqueUsers
        submissions := totalSubmissions
        conversionRate := conversionRateOf totalSubmissions totalScans }
    timeline := { scans := timeGroups, submissions := submissionGroups }
    breakdowns := { devices := deviceBreakdown, locations := locationBreakdown } }

/-! ## Concrete inputs for submissions, rooms and analytics -/

/-- The stored row that `demoSubmissionWorld` returns for `demoSubmission`. -/
def demoStoredSubmission : SubmissionRow :=
  { submissionInsertOf demoSubmission with id := "sub-1", created_at := "2024-05-01T10:00:05Z" }

/-- A world in which the form resolves and the store refuses the insert. -/
def demoRefusingWorld : SubmissionWorld :=
  { lookupForm := fun _ => .resolved (some demoForm) none
    insertSubmission := fun _ =>
      .resolved none (some "duplicate key value violates unique constraint") }

/-- A world in which no form resolves. -/
def demoNoFormWorld : SubmissionWorld :=
  { lookupForm := fun _ => .resolved none (some "no rows")
    insertSubmission := fun _ => .rejected }

/-- A hub in which socket 1 is in room `campaign:7` and socket 2 in room `campaign:8`. -/
def demoTwoRooms : Hub :=
  { sockets := [(1, some "u1"), (2, some "u2")]
    rooms := [("campaign:7", 1), ("campaign:8", 2)] }

/-- The local time of the two timestamps of the scenario. -/
def demoLocalTime : String → Option LocalTime :=
  fun s =>
    if s = "2024-05-01T10:00:00Z" then
      some { fullYear := 2024, month := 4, date := 1, hours := 10 }
    else if s = "2024-05-01T10:00:05Z" then
      some { fullYear := 2024, month := 4, date := 1, hours := 10 }
    else none

/-- The stored row of the scan of the scenario as the store returns it: JSON has no
`undefined`, so the unknown fields of the user agent are absent. -/
def demoJsonRow : ScanRow :=
  { qr_code_id := "qr-1"
    campaign_id := "42"
    user_uuid := .str "00000000-0000-4000-8000-000000000001"
    ip_address := some "203.0.113.9"
    user_agent := some "Mozilla/5.0"
    browser_fingerprint := "Chrome|120.0|Android"
    location_data := some { city := "Accra", region := "AA", country := "GH" }
    metadata := .obj [("source", .str "poster"),
      ("device", .obj [("type", .str "mobile")]),
      ("browser", .obj [("name", .str "Chrome"), ("version", .str "120.0")]),
      ("os", .obj [("name", .str "Android")])]
    id := "scan-1"
    created_at := "2024-05-01T10:00:00Z" }

/-- A world in which the QR code of campaign 42 resolves, has no expiry, and the insert
returns `demoJsonRow`. -/
def demoJsonScanWorld : ScanWorld :=
  demoWorld (.resolved (some (demoQr none)) none) (fun _ => .resolved (some demoJsonRow) none)

/-- The stored row of the submission of the scenario as the store returns it. -/
def demoJsonSubmissionRow : SubmissionRow :=
  { form_id := "form-1"
    qr_code_id := .null
    user_uuid := .str "user-9"
    data := .obj [("email", .str "a@b.c")]
    metadata := .obj []
    id := "sub-1"
    created_at := "2024-05-01T10:00:05Z" }

/-- A world in which the form resolves and the insert returns `demoJsonSubmissionRow`. -/
def demoJsonSubmissionWorld : SubmissionWorld :=
  { lookupForm := fun _ => .resolved (some demoForm) none
    insertSubmission := fun _ => .resolved (some demoJsonSubmissionRow) none }

/-- Two stored scans of one user: a phone in Accra, and one without location or device
whose timestamp does not parse. -/
def demoScans : List ScanRow :=
  [demoJsonRow,
    { demoJsonRow with
      id := "scan-2", created_at := "not a date", location_data := none,
      metadata := .obj [] }]

/-- A stored scan whose device type is the text `__proto__`. -/
def protoScan : ScanRow :=
  { demoJsonRow with metadata := .obj [("device", .obj [("type", .str "__proto__")])] }

/-- A stored scan whose device type is the text `constructor`. -/
def constructorScan : ScanRow :=
  { demoJsonRow with metadata := .obj [("device", .obj [("type", .str "constructor")])] }

/-! ## Ingestion handlers: not found, expired, insert failure, success -/

/-- The trace of `recordScan` when the QR code resolves, is not expired and the insert
returns the stored row. -/
theorem recordScan_trace_stored (w : ScanWorld) (req : ScanRequest) (qrCode : QrCode)
    (scanEvent : ScanRow)
    (hl : w.lookupQr req.slug = .resolved (some qrCode) none)
    (hexp : isExpired w qrCode = false)
    (hins : w.insertScan (scanInsertOf w req qrCode) = .resolved (some scanEvent) none) :
    recordScan w req =
      [.insertScan (scanInsertOf w req qrCode) (.resolved (some scanEvent) none),
        .emit (roomKey qrCode.campaigns.id) "scan_event"
          (.obj [("type", .str "scan"),
            ("qrCodeId", .str qrCode.id),
            ("campaignId", .str qrCode.campaigns.id),
            ("timestamp", .str scanEvent.created_at),
            ("location", cityOf (w.geoLookup req.ip)),
            ("device", .str (deviceType (w.parseUA req.userAgent)))]),
        .respond 200
          (.obj [("success", .bool true),
            ("userUuid", req.userUuid.orElse (.str w.generateUUID)),
            ("scanId", .str scanEvent.id)])] := by
  unfold recordScan
  rw [hl]
  simp only [hexp, hins]
  rfl

/-- C1: when the active-QR lookup returns an error or no row, `recordScan` answers 404;
when the resolved QR code has an `expires_at` that lies before the current time, it
answers 410; in both cases the response is the only effect of the handler, so no
`scan_events` insert is performed and nothing is emitted to any room. -/
theorem recordScan_notFound_expired (w : ScanWorld) (req : ScanRequest) :
    (∀ data error, w.lookupQr req.slug = .resolved data error →
      (error ≠ none ∨ data = none) →
      recordScan w req = [.respond 404 (errorBody (.str "QR code not found"))]) ∧
    (∀ qrCode s t, w.lookupQr req.slug = .resolved (some qrCode) none →
      qrCode.expires_at = some s → s ≠ "" → w.parseDate s = some t → t < w.now →
      recordScan w req = [.respond 410 (errorBody (.str "QR code has expired"))]) := by
  constructor
  · intro data error hl h
    unfold recordScan
    rw [hl]
    cases error <;> cases data <;> first | rfl | simp at h
  · intro qrCode s t hl hs hne hp hlt
    have hexp : isExpired w qrCode = true := by
      simp [isExpired, hs, hne, hp, hlt]
    unfold recordScan
    rw [hl]
    simp [hexp]

/-- Instance of C1: an unknown slug, and a QR code that expired in 2020. -/
theorem recordScan_notFound_expired_witness :
    recordScan (demoWorld (.resolved none (some "no rows")) (fun _ => .rejected)) demoRequest =
      [.respond 404 (errorBody (.str "QR code not found"))] ∧
    recordScan
        (demoWorld (.resolved (some (demoQr (some "2020-01-01T00:00:00Z"))) none)
          (fun _ => .rejected))
        demoRequest =
      [.respond 410 (errorBody (.str "QR code has expired"))] :=
  ⟨(recordScan_notFound_expired
      (demoWorld (.resolved none (some "no rows")) (fun _ => .rejected)) demoRequest).1
      none (some "no rows") rfl (Or.inl (by simp)),
    (recordScan_notFound_expired
      (demoWorld (.resolved (some (demoQr (some "2020-01-01T00:00:00Z"))) none)
        (fun _ => .rejected)) demoRequest).2
      (demoQr (some "2020-01-01T00:00:00Z")) "2020-01-01T00:00:00Z" 1577836800000
      rfl rfl (by decide) (by simp [demoWorld]) (by simp [demoWorld])⟩

/-! ## Realtime hub: joining, membership invariant -/

/-- The room key determines the campaign id. -/
theorem roomKey_injective (a b : String) (h : roomKey a = roomKey b) : a = b := by
  unfold roomKey at h
  have hd := congrArg String.data h
  simp only [String.data_append] at hd
  exact String.ext (List.append_cancel_left hd)

/-- Running a sequence of events followed by one more event. -/
theorem run_append (verify : String → Option Decoded) (es : List SocketEvent) (e : SocketEvent) :
    ∀ h : Hub, run verify h (es ++ [e]) = (step verify (run verify h es) e).1 := by
  induction es with
  | nil => intro h; rfl
  | cons x xs ih => intro h; simp only [List.cons_append, run]; exact ih _

/-- A member after `socket.join` was a member before, or is the joining socket. -/
theorem join_rooms (h : Hub) (sid : Nat) (room : String) (m : String × Nat)
    (hm : m ∈ (h.join sid room).rooms) : m ∈ h.rooms ∨ m = (room, sid) := by
  unfold Hub.join at hm
  split at hm
  · exact Or.inl hm
  · simp only [List.mem_append, List.mem_singleton] at hm
    exact hm

/-- C2: for a connected socket whose ownership query (campaign id and bound user id)
returns an error or no row, `join_campaign` sends exactly one message, an `error` to the
caller, sends no `joined_campaign`, and leaves the hub, hence every room, unchanged. -/
theorem joinCampaign_not_owner (verify : String → Option Decoded) (h : Hub) (sid : Nat)
    (userId : Option String) (campaignId : String) (query : OwnershipQuery)
    (data : Option CampaignRow) (error : Option String)
    (hs : h.sockets.lookup sid = some userId)
    (hq : query campaignId userId = .resolved data error)
    (hfail : error ≠ none ∨ data = none) :
    step verify h (.join_campaign sid campaignId query) =
      (h, [{ socket := sid, event := "error",
             payload := .obj [("message", .str "Campaign not found")] }]) ∧
    (step verify h (.join_campaign sid campaignId query)).1.rooms = h.rooms ∧
    ∀ d ∈ (step verify h (.join_campaign sid campaignId query)).2,
      d.socket = sid ∧ d.event = "error" := by
  have hstep : step verify h (.join_campaign sid campaignId query) =
      (h, [{ socket := sid, event := "error",
             payload := .obj [("message", .str "Campaign not found")] }]) := by
    simp only [step, hs, joinCampaign, hq]
    cases error <;> cases data <;> first | rfl | simp at hfail
  refine ⟨hstep, by rw [hstep], ?_⟩
  rw [hstep]
  intro d hd
  simp only [List.mem_singleton] at hd
  subst hd
  exact ⟨rfl, rfl⟩

/-- Instance of C2: user `u1` asks to join campaign 43, which it does not own. -/
theorem joinCampaign_not_owner_witness :
    step demoVerify demoHub (.join_campaign 1 "43" demoQuery) =
      (demoHub, [{ socket := 1, event := "error",
                   payload := .obj [("message", .str "Campaign not found")] }]) :=
  (joinCampaign_not_owner demoVerify demoHub 1 (some "u1") "43" demoQuery none
    (some "no rows") rfl (by simp [demoQuery]) (Or.inr rfl)).1

/-- A member after one step was a member before, or the step is a `join_campaign` of
that socket for that room whose ownership query returned a row and no error. -/
theorem step_rooms (verify : String → Option Decoded) (h : Hub) (e : SocketEvent)
    (m : String × Nat) (hm : m ∈ (step verify h e).1.rooms) :
    m ∈ h.rooms ∨
      ∃ campaignId query userId row, e = .join_campaign m.2 campaignId query ∧
        m.1 = roomKey campaignId ∧ h.sockets.lookup m.2 = some userId ∧
        query campaignId userId = .resolved (some row) none := by
  cases e with
  | connect sid token =>
    left
    simp only [step] at hm
    cases hl : h.sockets.lookup sid with
    | some u => simpa [hl] using hm
    | none =>
      simp only [hl] at hm
      cases ha : authenticate verify token with
      | error msg => simpa [ha] using hm
      | next u => simpa [ha] using hm
  | join_campaign sid campaignId query =>
    simp only [step] at hm
    cases hl : h.sockets.lookup sid with
    | none => left; simpa [hl] using hm
    | some userId =>
      simp only [hl, joinCampaign] at hm
      cases hq : query campaignId userId with
      | rejected => left; simpa [hq] using hm
      | resolved data error =>
        cases error with
        | some e => left; cases data <;> simpa [hq] using hm
        | none =>
          cases data with
          | none => left; simpa [hq] using hm
          | some row =>
            simp only [hq] at hm
            rcases join_rooms _ _ _ _ hm with h1 | h1
            · exact Or.inl h1
            · right
              subst h1
              exact ⟨campaignId, query, userId, row, rfl, rfl, hl, hq⟩
  | leave_campaign sid campaignId =>
    left
    simp only [step] at hm
    cases hl : h.sockets.lookup sid with
    | none => simpa [hl] using hm
    | some u =>
      simp only [hl, leaveCampaign, Hub.leave] at hm
      exact (List.mem_filter.mp hm).1
  | disconnect sid =>
    left
    simp only [step, Hub.remove] at hm
    exact (List.mem_filter.mp hm).1

/-- Every member of every room in a reachable hub got there by a `join_campaign` event
of its own whose ownership query, asked for the user bound to the socket, returned a row. -/
theorem member_has_join (verify : String → Option Decoded) (events : List SocketEvent) :
    ∀ room sid, (room, sid) ∈ (run verify Hub.empty events).rooms →
      ∃ pre campaignId query post userId row,
        events = pre ++ .join_campaign sid campaignId query :: post ∧
        room = roomKey campaignId ∧
        (run verify Hub.empty pre).sockets.lookup sid = some userId ∧
        query campaignId userId = .resolved (some row) none := by
  induction events using List.reverseRecOn with
  | nil => intro room sid hm; simp [run, Hub.empty] at hm
  | append_singleton es e ih =>
    intro room sid hm
    rw [run_append] at hm
    rcases step_rooms verify _ e (room, sid) hm with h1 | ⟨c, q, u, row, he, hr, hl, hq⟩
    · obtain ⟨pre, c, q, post, u, row, hev, hr, hl, hq⟩ := ih room sid h1
      exact ⟨pre, c, q, post ++ [e], u, row, by simp [hev], hr, hl, hq⟩
    · exact ⟨es, c, q, [], u, row, by simp [he], hr, hl, hq⟩

/-- C3: in the hub reached from the empty hub by any sequence of connect, join_campaign,
leave_campaign and disconnect events, a socket is a member of room `campaign:C` only if
an earlier event of the sequence is its own `join_campaign(C)`, handled while it was
connected, whose ownership query for its bound user returned a row and no error; so a
publish to `campaign:C` delivers to no socket that never sent `join_campaign(C)`. -/
theorem room_membership_invariant (verify : String → Option Decoded)
    (events : List SocketEvent) (sid : Nat) (campaignId : String) :
    ((roomKey campaignId, sid) ∈ (run verify Hub.empty events).rooms →
      ∃ pre query post userId row,
        events = pre ++ .join_campaign sid campaignId query :: post ∧
        (run verify Hub.empty pre).sockets.lookup sid = some userId ∧
        query campaignId userId = .resolved (some row) none) ∧
    ((∀ query, SocketEvent.join_campaign sid campaignId query ∉ events) →
      ∀ event payload,
        ∀ d ∈ (run verify Hub.empty events).publish (roomKey campaignId) event payload,
          d.socket ≠ sid) := by
  have key : (roomKey campaignId, sid) ∈ (run verify Hub.empty events).rooms →
      ∃ pre query post userId row,
        events = pre ++ .join_campaign sid campaignId query :: post ∧
        (run verify Hub.empty pre).sockets.lookup sid = some userId ∧
        query campaignId userId = .resolved (some row) none := by
    intro hm
    obtain ⟨pre, c, q, post, u, row, hev, hr, hl, hq⟩ := member_has_join verify events _ _ hm
    have hc : campaignId = c := roomKey_injective _ _ hr
    subst hc
    exact ⟨pre, q, post, u, row, hev, hl, hq⟩
  refine ⟨key, ?_⟩
  intro hno event payload d hd hsock
  simp only [Hub.publish, Hub.members, List.mem_map, List.mem_filter] at hd
  obtain ⟨s, ⟨m, ⟨hm, hroom⟩, hs⟩, rfl⟩ := hd
  simp only at hsock
  have hmem : (roomKey campaignId, sid) ∈ (run verify Hub.empty events).rooms := by
    have hmeq : m = (roomKey campaignId, sid) := by
      rw [← hsock, ← hs, ← of_decide_eq_true hroom]
    rw [← hmeq]
    exact hm
  obtain ⟨pre, q, post, u, row, hev, -, -⟩ := key hmem
  exact hno q (by simp [hev])

/-- Instance of C3: socket 1 joins campaign 42 and socket 2 only connects; the member
has its authorized join in the history, and a publish to `campaign:42` skips socket 2. -/
theorem room_membership_invariant_witness :
    (∃ pre query post userId row,
      [SocketEvent.connect 1 (some "valid-token"), .join_campaign 1 "42" demoQuery,
          .connect 2 (some "valid-token")] =
        pre ++ .join_campaign 1 "42" query :: post ∧
      (run demoVerify Hub.empty pre).sockets.lookup 1 = some userId ∧
      query "42" userId = .resolved (some row) none) ∧
    ∀ d ∈ (run demoVerify Hub.empty
        [.connect 1 (some "valid-token"), .join_campaign 1 "42" demoQuery,
          .connect 2 (some "valid-token")]).publish (roomKey "42") "scan_event" .null,
      d.socket ≠ 2 :=
  ⟨(room_membership_invariant demoVerify
      [.connect 1 (some "valid-token"), .join_campaign 1 "42" demoQuery,
        .connect 2 (some "valid-token")] 1 "42").1
      (by simp [run, step, Hub.empty, authenticate, demoVerify, joinCampaign, demoQuery,
        Hub.join, List.lookup]),
    (room_membership_invariant demoVerify
      [.connect 1 (some "valid-token"), .join_campaign 1 "42" demoQuery,
        .connect 2 (some "valid-token")] 2 "42").2
      (by simp) "scan_event" .null⟩

/-! ## Stored metadata -/

/-- Reading a property after an assignment. -/
theorem lookupProp_setProp (o : List (String × JVal)) (k k' : String) (v : JVal) :
    JVal.lookupProp (JVal.setProp o k v) k' = if k' = k then some v else JVal.lookupProp o k' := by
  induction o with
  | nil =>
    by_cases h : k' = k
    · simp [JVal.setProp, JVal.lookupProp, List.lookup, h]
    · have hb : (k' == k) = false := by simpa using h
      simp [JVal.setProp, JVal.lookupProp, List.lookup, h, hb]
  | cons p rest ih =>
    obtain ⟨k0, v0⟩ := p
    unfold JVal.lookupProp at ih ⊢
    by_cases h0 : k0 = k
    · subst h0
      by_cases h : k' = k0
      · simp [JVal.setProp, List.lookup, h]
      · have hb : (k' == k0) = false := by simpa using h
        simp [JVal.setProp, List.lookup, h, hb]
    · by_cases h : k' = k
      · subst h
        have h1 : (k' == k0) = false := by simpa using fun h => h0 h.symm
        simp [JVal.setProp, List.lookup, h0, h1, ih]
      · by_cases h2 : k' = k0
        · simp [JVal.setProp, List.lookup, h0, h2]
        · have h3 : (k' == k0) = false := by simpa using h2
          simp [JVal.setProp, List.lookup, h0, h3, ih, h]

/-- C4 (amended): the metadata of the inserted scan record is the shallow merge (object
spread) of the caller's metadata with the derived record: `browser`, `os` and `device`
hold exactly `ua.browser`, `ua.os` and `ua.device`, replacing whatever the caller put
under these keys, and every other key of the caller's metadata keeps its value. -/
theorem scanMetadata_shallow_merge (w : ScanWorld) (req : ScanRequest) (qrCode : QrCode) :
    (scanInsertOf w req qrCode).metadata =
      scanMetadata (withDefault req.metadata) (w.parseUA req.userAgent) ∧
    JVal.lookupProp (scanInsertOf w req qrCode).metadata.ownProps "browser" =
      some (w.parseUA req.userAgent).browser.toJVal ∧
    JVal.lookupProp (scanInsertOf w req qrCode).metadata.ownProps "os" =
      some (w.parseUA req.userAgent).os.toJVal ∧
    JVal.lookupProp (scanInsertOf w req qrCode).metadata.ownProps "device" =
      some (w.parseUA req.userAgent).device.toJVal ∧
    ∀ k, k ≠ "browser" → k ≠ "os" → k ≠ "device" →
      JVal.lookupProp (scanInsertOf w req qrCode).metadata.ownProps k =
        JVal.lookupProp (withDefault req.metadata).ownProps k := by
  refine ⟨rfl, ?_, ?_, ?_, ?_⟩
  · simp [scanInsertOf, scanMetadata, JVal.ownProps, lookupProp_setProp]
  · simp [scanInsertOf, scanMetadata, JVal.ownProps, lookupProp_setProp]
  · simp [scanInsertOf, scanMetadata, JVal.ownProps, lookupProp_setProp]
  · intro k h1 h2 h3
    simp [scanInsertOf, scanMetadata, JVal.ownProps, lookupProp_setProp, h1, h2, h3]

/-- Instance of C4 (amended): the caller's key `source` is kept in the stored metadata. -/
theorem scanMetadata_shallow_merge_witness :
    JVal.lookupProp
        (scanInsertOf (demoWorld .rejected (fun _ => .rejected)) demoRequest
          (demoQr none)).metadata.ownProps "source" =
      JVal.lookupProp (withDefault demoRequest.metadata).ownProps "source" :=
  (scanMetadata_shallow_merge (demoWorld .rejected (fun _ => .rejected)) demoRequest
    (demoQr none)).2.2.2.2 "source" (by decide) (by decide) (by decide)

/-- C4 (as stated, refuted): for caller metadata with a nested `device` object that has an
extra sub-key, the deep merge keeps the sub-key next to the derived ones, while the
stored metadata holds `ua.device` alone; the stored metadata is not the deep merge. -/
theorem nested_device_replaced :
    (JVal.deepMerge (withDefault demoRequest.metadata) (derivedRecord demoUA)).getOpt "device" =
      .obj [("extra", .str "x"), ("type", .str "mobile"), ("vendor", .undefined),
        ("model", .undefined)] ∧
    (scanInsertOf (demoWorld .rejected (fun _ => .rejected)) demoRequest
        (demoQr none)).metadata.getOpt "device" =
      .obj [("type", .str "mobile"), ("vendor", .undefined), ("model", .undefined)] ∧
    (scanInsertOf (demoWorld .rejected (fun _ => .rejected)) demoRequest
        (demoQr none)).metadata ≠
      JVal.deepMerge (withDefault demoRequest.metadata)
        (derivedRecord ((demoWorld .rejected (fun _ => .rejected)).parseUA
          demoRequest.userAgent)) := by
  refine ⟨?_, ?_, ?_⟩
  · simp [demoRequest, demoUA, withDefault, derivedRecord, JVal.deepMerge, JVal.mergeProps,
      JVal.setProp, JVal.lookupProp, List.lookup, JVal.getOpt, Browser.toJVal, OS.toJVal,
      Device.toJVal, JVal.ofOptString]
  · simp [scanInsertOf, demoWorld, demoRequest, demoUA, withDefault, scanMetadata,
      JVal.ownProps, JVal.setProp, JVal.lookupProp, List.lookup, JVal.getOpt, Browser.toJVal,
      OS.toJVal, Device.toJVal, JVal.ofOptString]
  · intro h
    have h2 := congrArg (fun v => ((v.getOpt "device").getOpt "extra").truthy) h
    simp [scanInsertOf, demoWorld, demoRequest, demoUA, withDefault, scanMetadata,
      derivedRecord, JVal.deepMerge, JVal.mergeProps, JVal.ownProps, JVal.setProp,
      JVal.lookupProp, List.lookup, JVal.getOpt, Browser.toJVal, OS.toJVal, Device.toJVal,
      JVal.ofOptString, JVal.truthy] at h2

/-! ## Browser fingerprint -/

/-- The accumulator loop of `String.intercalate`. -/
theorem intercalate_go_eq (sep : String) (l : List String) :
    ∀ acc : String, String.intercalate.go acc sep l =
      match l with
      | [] => acc
      | a :: as => acc ++ sep ++ String.intercalate sep (a :: as) := by
  induction l with
  | nil => intro acc; rfl
  | cons a as ih =>
    intro acc
    cases as with
    | nil => simp [String.intercalate.go, String.intercalate]
    | cons b bs =>
      have h1 := ih (acc ++ sep ++ a)
      have h2 := ih a
      simp only [String.intercalate.go, String.intercalate] at h1 h2 ⊢
      rw [h1, h2]
      simp [String.append_assoc]

/-- Unfolding `String.intercalate` on a list of at least two strings. -/
theorem intercalate_cons_cons (sep a b : String) (rest : List String) :
    String.intercalate sep (a :: b :: rest) = a ++ sep ++ String.intercalate sep (b :: rest) := by
  have h := intercalate_go_eq sep (b :: rest) a
  simpa [String.intercalate] using h

/-- The model of `Array.prototype.join` is `String.intercalate` on the element texts. -/
theorem join_eq_intercalate (sep : String) :
    ∀ l : List (Option String), join sep l = String.intercalate sep (l.map elementText)
  | [] => rfl
  | [a] => by simp [join, String.intercalate, String.intercalate.go]
  | a :: b :: rest => by
    have ih := join_eq_intercalate sep (b :: rest)
    simp only [join, List.map_cons] at ih ⊢
    rw [intercalate_cons_cons, ih]

/-- Filtering with `Boolean` keeps the present, non-empty values. -/
theorem filter_truthy_text (vs : List (Option String)) :
    (vs.filter isTruthy).map elementText = nonEmptyValues vs := by
  induction vs with
  | nil => rfl
  | cons v vs ih =>
    unfold nonEmptyValues at ih ⊢
    cases v with
    | none =>
      have h : isTruthy none = false := rfl
      simp [List.filter_cons, h, ih]
    | some s =>
      by_cases hs : s = ""
      · subst hs
        have h : isTruthy (some "") = false := rfl
        simp [List.filter_cons, h, ih]
      · have h : isTruthy (some s) = true := by simp [isTruthy, hs]
        simp [List.filter_cons, h, ih, hs, elementText]

/-- A text without `|` has no two adjacent `|`. -/
theorem chain_of_no_pipe : ∀ l : List Char, '|' ∉ l → l.Chain' NoPipePair
  | [] => fun _ => List.chain'_nil
  | [_] => fun _ => List.chain'_singleton _
  | a :: b :: rest => fun h => by
    rw [List.chain'_cons]
    refine ⟨?_, chain_of_no_pipe (b :: rest) (fun hm => h (List.mem_cons_of_mem _ hm))⟩
    intro hab
    rw [hab.1] at h
    exact h (List.mem_cons_self _ _)

/-- Shape of the joined text of non-empty components free of `|`: it is empty only for
no component, and otherwise it neither starts nor ends with `|` nor has two adjacent. -/
theorem join_pipe_data :
    ∀ l : List (Option String),
      (∀ v ∈ l, ∃ s, v = some s ∧ s ≠ "" ∧ '|' ∉ s.data) →
      (l = [] ∧ (join "|" l).data = []) ∨
      ((join "|" l).data ≠ [] ∧ (join "|" l).data.head? ≠ some '|' ∧
        (join "|" l).data.getLast? ≠ some '|' ∧ (join "|" l).data.Chain' NoPipePair)
  | [] => fun _ => Or.inl ⟨rfl, rfl⟩
  | [a] => fun h => by
    obtain ⟨s, rfl, hne, hp⟩ := h a (by simp)
    right
    have hd : s.data ≠ [] := fun hd => hne (String.ext hd)
    refine ⟨by simpa [join, elementText] using hd, ?_, ?_, ?_⟩
    · simp only [join, elementText]
      intro hh
      exact hp (List.mem_of_mem_head? hh)
    · simp only [join, elementText]
      intro hh
      exact hp (List.mem_of_mem_getLast? hh)
    · simpa [join, elementText] using chain_of_no_pipe s.data hp
  | a :: b :: rest => fun h => by
    obtain ⟨s, rfl, hne, hp⟩ := h a (by simp)
    have hd : s.data ≠ [] := fun hd => hne (String.ext hd)
    have ih := join_pipe_data (b :: rest) (fun v hv => h v (List.mem_cons_of_mem _ hv))
    rcases ih with ⟨hnil, -⟩ | ⟨h1, h2, h3, h4⟩
    · simp at hnil
    · right
      have hdata : (join "|" (some s :: b :: rest)).data =
          s.data ++ '|' :: (join "|" (b :: rest)).data := by
        simp [join, elementText, String.data_append]
      rw [hdata]
      refine ⟨by simp, ?_, ?_, ?_⟩
      · rw [List.head?_append_of_ne_nil _ hd]
        intro hh
        exact hp (List.mem_of_mem_head? hh)
      · rw [List.getLast?_append_of_ne_nil _ (by simp)]
        cases hj : (join "|" (b :: rest)).data with
        | nil => exact absurd hj h1
        | cons c cs =>
          rw [List.getLast?_cons_cons, ← hj]
          exact h3
      · rw [List.chain'_append]
        refine ⟨chain_of_no_pipe s.data hp, ?_, ?_⟩
        · rw [List.chain'_cons']
          refine ⟨?_, h4⟩
          intro y hy hpair
          exact h2 (by rw [Option.mem_def.mp hy, hpair.2])
        · intro x hx y _ hpair
          rw [hpair.1] at hx
          exact hp (List.mem_of_mem_getLast? hx)

/-- C5: the fingerprint is the list of the present, non-empty values among browser name,
browser version, OS name, OS version, device vendor and device model, in that order,
joined with `|`; it is empty when all six are empty or absent; and when no component
contains `|` it does not start with `|`, does not end with `|` and does not contain `||`. -/
theorem generateBrowserFingerprint_spec (ua : UAResult) :
    generateBrowserFingerprint ua =
      String.intercalate "|" (nonEmptyValues (fingerprintValues ua)) ∧
    ((∀ v ∈ fingerprintValues ua, v = none ∨ v = some "") →
      generateBrowserFingerprint ua = "") ∧
    ((∀ s, some s ∈ fingerprintValues ua → '|' ∉ s.data) →
      (generateBrowserFingerprint ua).data.head? ≠ some '|' ∧
      (generateBrowserFingerprint ua).data.getLast? ≠ some '|' ∧
      ¬ ['|', '|'] <:+: (generateBrowserFingerprint ua).data) := by
  have hfp : generateBrowserFingerprint ua =
      join "|" ((fingerprintValues ua).filter isTruthy) := rfl
  refine ⟨?_, ?_, ?_⟩
  · rw [hfp, join_eq_intercalate, filter_truthy_text]
  · intro h
    have hnil : (fingerprintValues ua).filter isTruthy = [] := by
      rw [List.filter_eq_nil_iff]
      intro v hv
      rcases h v hv with rfl | rfl <;> simp [isTruthy]
    rw [hfp, hnil]
    rfl
  · intro h
    have hall : ∀ v ∈ (fingerprintValues ua).filter isTruthy,
        ∃ s, v = some s ∧ s ≠ "" ∧ '|' ∉ s.data := by
      intro v hv
      rw [List.mem_filter] at hv
      obtain ⟨hm, ht⟩ := hv
      cases v with
      | none => simp [isTruthy] at ht
      | some s => exact ⟨s, rfl, by simpa [isTruthy] using ht, h s hm⟩
    rw [hfp]
    rcases join_pipe_data _ hall with ⟨-, h0⟩ | ⟨-, h2, h3, h4⟩
    · rw [h0]
      simp
    · refine ⟨h2, h3, ?_⟩
      intro hinf
      have hc := h4.infix hinf
      rw [List.chain'_cons] at hc
      exact hc.1 ⟨rfl, rfl⟩

/-- Instance of C5: a user agent with no known field has the empty fingerprint, and the
fingerprint of the phone browser has no leading, trailing or doubled `|`. -/
theorem generateBrowserFingerprint_spec_witness :
    generateBrowserFingerprint unknownUA = "" ∧
    generateBrowserFingerprint demoUA = "Chrome|120.0|Android" ∧
    (generateBrowserFingerprint demoUA).data.head? ≠ some '|' ∧
    (generateBrowserFingerprint demoUA).data.getLast? ≠ some '|' ∧
    ¬ ['|', '|'] <:+: (generateBrowserFingerprint demoUA).data :=
  ⟨(generateBrowserFingerprint_spec unknownUA).2.1
      (by simp [fingerprintValues, unknownUA]),
    by decide,
    (generateBrowserFingerprint_spec demoUA).2.2
      (by
        intro s hs
        simp only [fingerprintValues, demoUA, List.mem_cons, Option.some.injEq,
          List.mem_singleton, List.not_mem_nil, or_false] at hs
        rcases hs with h | h | h | h | h | h <;> first | (subst h; decide) | simp at h)⟩

/-! ## Ingestion handlers: ordering of persistence and broadcast -/

/-- C6: in every trace of `recordScan` and of `recordSubmission`, an emit is preceded by
an insert of the corresponding row that returned the stored row without error, and the
`timestamp` of the emitted payload is the `created_at` of that stored row. -/
theorem persist_before_broadcast :
    (∀ (w : ScanWorld) (req : ScanRequest) (pre post : List Effect) (room event : String)
        (payload : JVal),
      recordScan w req = pre ++ .emit room event payload :: post →
      ∃ row stored,
        Effect.insertScan row (.resolved (some stored) none) ∈ pre ∧
        w.insertScan row = .resolved (some stored) none ∧
        room = roomKey row.campaign_id ∧
        payload.get "timestamp" = some (.str stored.created_at)) ∧
    (∀ (w : SubmissionWorld) (req : SubmissionRequest) (pre post : List Effect)
        (room event : String) (payload : JVal),
      recordSubmission w req = pre ++ .emit room event payload :: post →
      ∃ row stored,
        Effect.insertSubmission row (.resolved (some stored) none) ∈ pre ∧
        w.insertSubmission row = .resolved (some stored) none ∧
        payload.get "formId" = some (.str row.form_id) ∧
        payload.get "timestamp" = some (.str stored.created_at)) := by
  constructor
  · intro w req pre post room event payload h
    unfold recordScan at h
    cases hl : w.lookupQr req.slug with
    | rejected =>
      rw [hl] at h
      rcases pre with _ | ⟨p1, _ | ⟨p2, pre⟩⟩ <;> simp at h
    | resolved data error =>
      rw [hl] at h
      cases error with
      | some e =>
        cases data <;> (rcases pre with _ | ⟨p1, _ | ⟨p2, pre⟩⟩ <;> simp at h)
      | none =>
        cases data with
        | none => rcases pre with _ | ⟨p1, _ | ⟨p2, pre⟩⟩ <;> simp at h
        | some qrCode =>
          cases hexp : isExpired w qrCode with
          | true =>
            simp only [hexp] at h
            rcases pre with _ | ⟨p1, _ | ⟨p2, pre⟩⟩ <;> simp at h
          | false =>
            simp only [hexp] at h
            cases hins : w.insertScan (scanInsertOf w req qrCode) with
            | rejected =>
              simp only [hins] at h
              rcases pre with _ | ⟨p1, _ | ⟨p2, _ | ⟨p3, pre⟩⟩⟩ <;> simp at h
            | resolved sdata serror =>
              simp only [hins] at h
              cases serror with
              | some e =>
                cases sdata <;>
                  (rcases pre with _ | ⟨p1, _ | ⟨p2, _ | ⟨p3, pre⟩⟩⟩ <;> simp at h)
              | none =>
                cases sdata with
                | none => rcases pre with _ | ⟨p1, _ | ⟨p2, _ | ⟨p3, pre⟩⟩⟩ <;> simp at h
                | some scanEvent =>
                  rcases pre with _ | ⟨p1, _ | ⟨p2, _ | ⟨p3, _ | ⟨p4, pre⟩⟩⟩⟩ <;> simp at h
                  obtain ⟨h1, ⟨hroom, -, hpay⟩, -⟩ := h
                  refine ⟨scanInsertOf w req qrCode, scanEvent, ?_, hins, ?_, ?_⟩
                  · simp [h1]
                  · rw [← hroom]; rfl
                  · rw [← hpay]; simp [JVal.get, JVal.lookupProp, List.lookup]
  · intro w req pre post room event payload h
    unfold recordSubmission at h
    cases hl : w.lookupForm req.formId with
    | rejected =>
      rw [hl] at h
      rcases pre with _ | ⟨p1, _ | ⟨p2, pre⟩⟩ <;> simp at h
    | resolved data error =>
      rw [hl] at h
      cases error with
      | some e =>
        cases data <;> (rcases pre with _ | ⟨p1, _ | ⟨p2, pre⟩⟩ <;> simp at h)
      | none =>
        cases data with
        | none => rcases pre with _ | ⟨p1, _ | ⟨p2, pre⟩⟩ <;> simp at h
        | some form =>
          cases hins : w.insertSubmission (submissionInsertOf req) with
          | rejected =>
            simp only [hins] at h
            rcases pre with _ | ⟨p1, _ | ⟨p2, _ | ⟨p3, pre⟩⟩⟩ <;> simp at h
          | resolved sdata serror =>
            simp only [hins] at h
            cases serror with
            | some e =>
              cases sdata <;>
                (rcases pre with _ | ⟨p1, _ | ⟨p2, _ | ⟨p3, pre⟩⟩⟩ <;> simp at h)
            | none =>
              cases sdata with
              | none => rcases pre with _ | ⟨p1, _ | ⟨p2, _ | ⟨p3, pre⟩⟩⟩ <;> simp at h
              | some submission =>
                rcases pre with _ | ⟨p1, _ | ⟨p2, _ | ⟨p3, _ | ⟨p4, pre⟩⟩⟩⟩ <;> simp at h
                obtain ⟨h1, ⟨-, -, hpay⟩, -⟩ := h
                refine ⟨submissionInsertOf req, submission, ?_, hins, ?_, ?_⟩
                · simp [h1]
                · rw [← hpay]; simp [JVal.get, JVal.lookupProp, List.lookup, submissionInsertOf]
                · rw [← hpay]; simp [JVal.get, JVal.lookupProp, List.lookup]

/-- Instance of C6: the emits of a recorded scan and of a recorded submission. -/
theorem persist_before_broadcast_witness :
    (∃ row stored,
      Effect.insertScan row (.resolved (some stored) none) ∈
        [Effect.insertScan
          (scanInsertOf (demoWorld (.resolved (some (demoQr none)) none)
            (fun r => .resolved (some (demoStored r)) none)) demoRequest (demoQr none))
          (.resolved (some (demoStored
            (scanInsertOf (demoWorld (.resolved (some (demoQr none)) none)
              (fun r => .resolved (some (demoStored r)) none)) demoRequest (demoQr none))))
            none)] ∧
      (demoWorld (.resolved (some (demoQr none)) none)
        (fun r => .resolved (some (demoStored r)) none)).insertScan row =
          .resolved (some stored) none ∧
      roomKey "42" = roomKey row.campaign_id ∧
      (JVal.obj [("type", .str "scan"), ("qrCodeId", .str "qr-1"), ("campaignId", .str "42"),
        ("timestamp", .str "2024-05-01T10:00:00Z"), ("location", .str "Accra"),
        ("device", .str "mobile")]).get "timestamp" = some (.str stored.created_at)) ∧
    (∃ row stored,
      Effect.insertSubmission row (.resolved (some stored) none) ∈
        [Effect.insertSubmission (submissionInsertOf demoSubmission)
          (.resolved (some { submissionInsertOf demoSubmission with
            id := "sub-1", created_at := "2024-05-01T10:00:05Z" }) none)] ∧
      demoSubmissionWorld.insertSubmission row = .resolved (some stored) none ∧
      (JVal.obj [("type", .str "form_submission"), ("formId", .str "form-1"),
        ("campaignId", .str "7"), ("timestamp", .str "2024-05-01T10:00:05Z"),
        ("data", .obj [("email", .str "a@b.c")])]).get "formId" = some (.str row.form_id) ∧
      (JVal.obj [("type", .str "form_submission"), ("formId", .str "form-1"),
        ("campaignId", .str "7"), ("timestamp", .str "2024-05-01T10:00:05Z"),
        ("data", .obj [("email", .str "a@b.c")])]).get "timestamp" =
          some (.str stored.created_at)) :=
  ⟨persist_before_broadcast.1
      (demoWorld (.resolved (some (demoQr none)) none)
        (fun r => .resolved (some (demoStored r)) none)) demoRequest
      _ [.respond 200 (.obj [("success", .bool true),
        ("userUuid", .str "00000000-0000-4000-8000-000000000001"),
        ("scanId", .str "scan-1")])] _ "scan_event" _ rfl,
    persist_before_broadcast.2 demoSubmissionWorld demoSubmission
      _ [.respond 200 (.obj [("success", .bool true), ("submissionId", .str "sub-1")])]
      _ "form_submission" _ rfl⟩

/-! ## Ingestion handlers: insert failure and success -/

/-- C7: when the QR code resolves and is not expired but the `scan_events` insert returns
an error, `recordScan` answers 500 with the generic message `Failed to record scan`, and
its trace holds no emit. -/
theorem recordScan_insert_error (w : ScanWorld) (req : ScanRequest) (qrCode : QrCode)
    (data : Option ScanRow) (scanError : String)
    (hl : w.lookupQr req.slug = .resolved (some qrCode) none)
    (hexp : isExpired w qrCode = false)
    (hins : w.insertScan (scanInsertOf w req qrCode) = .resolved data (some scanError)) :
    recordScan w req =
      [.insertScan (scanInsertOf w req qrCode) (.resolved data (some scanError)),
        .respond 500 (errorBody (.str "Failed to record scan"))] ∧
    ∀ room event payload, Effect.emit room event payload ∉ recordScan w req := by
  have h : recordScan w req =
      [.insertScan (scanInsertOf w req qrCode) (.resolved data (some scanError)),
        .respond 500 (errorBody (.str "Failed to record scan"))] := by
    unfold recordScan
    rw [hl]
    simp only [hexp, hins]
    cases data <;> rfl
  refine ⟨h, ?_⟩
  intro room event payload hm
  rw [h] at hm
  simp at hm

/-- Instance of C7: the store refuses the insert. -/
theorem recordScan_insert_error_witness :
    recordScan (demoWorld (.resolved (some (demoQr none)) none)
        (fun _ => .resolved none (some "connection lost"))) demoRequest =
      [.insertScan
          (scanInsertOf (demoWorld (.resolved (some (demoQr none)) none)
            (fun _ => .resolved none (some "connection lost"))) demoRequest (demoQr none))
          (.resolved none (some "connection lost")),
        .respond 500 (errorBody (.str "Failed to record scan"))] :=
  (recordScan_insert_error
    (demoWorld (.resolved (some (demoQr none)) none)
      (fun _ => .resolved none (some "connection lost")))
    demoRequest (demoQr none) none "connection lost" rfl rfl rfl).1

/-- C8: when the QR code resolves, is not expired and the insert returns the stored row,
`recordScan` emits exactly one event, `scan_event` to room `campaign:<campaignId>`, with
payload type, qrCodeId, campaignId, timestamp (the stored `created_at`), location (the
city of the resolved location, `undefined` without location) and device (`ua.device.type`,
or `desktop` when that is empty or absent), and answers success with the stored row id as
scanId and with userUuid the caller's value when it is truthy and the generated UUID
otherwise. -/
theorem recordScan_success (w : ScanWorld) (req : ScanRequest) (qrCode : QrCode)
    (scanEvent : ScanRow)
    (hl : w.lookupQr req.slug = .resolved (some qrCode) none)
    (hexp : isExpired w qrCode = false)
    (hins : w.insertScan (scanInsertOf w req qrCode) = .resolved (some scanEvent) none) :
    recordScan w req =
      [.insertScan (scanInsertOf w req qrCode) (.resolved (some scanEvent) none),
        .emit ("campaign:" ++ qrCode.campaigns.id) "scan_event"
          (.obj [("type", .str "scan"),
            ("qrCodeId", .str qrCode.id),
            ("campaignId", .str qrCode.campaigns.id),
            ("timestamp", .str scanEvent.created_at),
            ("location",
              match w.geoLookup req.ip with
              | some location => .str location.city
              | none => .undefined),
            ("device",
              match (w.parseUA req.userAgent).device.type with
              | some type => if type = "" then .str "desktop" else .str type
              | none => .str "desktop")]),
        .respond 200
          (.obj [("success", .bool true),
            ("userUuid", if req.userUuid.truthy then req.userUuid else .str w.generateUUID),
            ("scanId", .str scanEvent.id)])] := by
  rw [recordScan_trace_stored w req qrCode scanEvent hl hexp hins]
  simp [roomKey, cityOf, deviceType, JVal.orElse]
  cases (w.parseUA req.userAgent).device.type with
  | none => rfl
  | some s => by_cases hs : s = "" <;> simp [hs]

/-- Instance of C8: a scan without `userUuid` from a phone in Accra. -/
theorem recordScan_success_witness :
    recordScan (demoWorld (.resolved (some (demoQr none)) none)
        (fun r => .resolved (some (demoStored r)) none)) demoRequest =
      [.insertScan
          (scanInsertOf (demoWorld (.resolved (some (demoQr none)) none)
            (fun r => .resolved (some (demoStored r)) none)) demoRequest (demoQr none))
          (.resolved (some (demoStored
            (scanInsertOf (demoWorld (.resolved (some (demoQr none)) none)
              (fun r => .resolved (some (demoStored r)) none)) demoRequest (demoQr none))))
            none),
        .emit "campaign:42" "scan_event"
          (.obj [("type", .str "scan"), ("qrCodeId", .str "qr-1"), ("campaignId", .str "42"),
            ("timestamp", .str "2024-05-01T10:00:00Z"), ("location", .str "Accra"),
            ("device", .str "mobile")]),
        .respond 200
          (.obj [("success", .bool true),
            ("userUuid", .str "00000000-0000-4000-8000-000000000001"),
            ("scanId", .str "scan-1")])] :=
  recordScan_success
    (demoWorld (.resolved (some (demoQr none)) none)
      (fun r => .resolved (some (demoStored r)) none))
    demoRequest (demoQr none) _ rfl rfl rfl

/-! ## Realtime hub: leaving a room -/

/-- Leaving a room the socket is not in changes nothing. -/
theorem leave_of_not_member (h : Hub) (sid : Nat) (room : String)
    (hm : (room, sid) ∉ h.rooms) : h.leave sid room = h := by
  unfold Hub.leave
  have hf : h.rooms.filter (fun m => !(decide (m.1 = room) && decide (m.2 = sid))) =
      h.rooms := by
    rw [List.filter_eq_self]
    intro m hmem
    obtain ⟨r, s⟩ := m
    by_cases h1 : r = room
    · by_cases h2 : s = sid
      · subst h1; subst h2; exact absurd hmem hm
      · simp [h2]
    · simp [h1]
  rw [hf]

/-- Leaving twice is leaving once. -/
theorem leave_leave (h : Hub) (sid : Nat) (room : String) :
    (h.leave sid room).leave sid room = h.leave sid room := by
  simp [Hub.leave, List.filter_filter]

/-- C9 (amended): for a connected socket that is not a member of room `campaign:C`,
`leave_campaign(C)` leaves the hub unchanged, so every publish reaches the same sockets
as before, and sends exactly one message, the acknowledgement `left_campaign` to the
caller, and no `error`; and for every connected socket, handling `leave_campaign(C)`
twice yields the same hub as handling it once. -/
theorem leaveCampaign_not_member (verify : String → Option Decoded) (h : Hub) (sid : Nat)
    (userId : Option String) (campaignId : String)
    (hs : h.sockets.lookup sid = some userId) :
    ((roomKey campaignId, sid) ∉ h.rooms →
      step verify h (.leave_campaign sid campaignId) =
        (h, [{ socket := sid, event := "left_campaign",
               payload := .obj [("campaignId", .str campaignId)] }]) ∧
      ∀ room event payload,
        (step verify h (.leave_campaign sid campaignId)).1.publish room event payload =
          h.publish room event payload) ∧
    (step verify (step verify h (.leave_campaign sid campaignId)).1
        (.leave_campaign sid campaignId)).1 =
      (step verify h (.leave_campaign sid campaignId)).1 := by
  constructor
  · intro hm
    have hstep : step verify h (.leave_campaign sid campaignId) =
        (h, [{ socket := sid, event := "left_campaign",
               payload := .obj [("campaignId", .str campaignId)] }]) := by
      simp only [step, hs, leaveCampaign, leave_of_not_member h sid _ hm]
    refine ⟨hstep, ?_⟩
    intro room event payload
    rw [hstep]
  · have h1 : (h.leave sid (roomKey campaignId)).sockets.lookup sid = some userId := hs
    simp only [step, hs, leaveCampaign, h1, leave_leave]

/-- Instance of C9 (amended): socket 1, in no room, leaves campaign 42. -/
theorem leaveCampaign_not_member_witness :
    step demoVerify demoHub (.leave_campaign 1 "42") =
      (demoHub, [{ socket := 1, event := "left_campaign",
                   payload := .obj [("campaignId", .str "42")] }]) :=
  ((leaveCampaign_not_member demoVerify demoHub 1 (some "u1") "42" rfl).1
    (by simp [demoHub])).1

/-- C9 (as stated, refuted): socket 1 is not a member of `campaign:42`, and handling its
`leave_campaign(42)` still sends it a `left_campaign` message: an observable effect. -/
theorem leave_nonmember_still_emits :
    (roomKey "42", 1) ∉ demoHub.rooms ∧
    (step demoVerify demoHub (.leave_campaign 1 "42")).2.map (fun d => (d.socket, d.event)) =
      [(1, "left_campaign")] ∧
    (step demoVerify demoHub (.leave_campaign 1 "42")).2 ≠ [] := by
  refine ⟨by simp [demoHub], by simp [step, demoHub, leaveCampaign, List.lookup],
    by simp [step, demoHub, leaveCampaign, List.lookup]⟩

/-! ## End-to-end scenario: join and scan -/

/-- The hub and the acknowledgement after a socket with a valid token joins a campaign
its user owns, starting from the empty hub. -/
theorem hub_after_join (verify : String → Option Decoded) (sid : Nat) (token : String)
    (userId : Option String) (campaignId : String) (query : OwnershipQuery) (row : CampaignRow)
    (htoken : token ≠ "") (hverify : verify token = some { userId := userId })
    (hq : query campaignId userId = .resolved (some row) none) :
    step verify (step verify Hub.empty (.connect sid (some token))).1
        (.join_campaign sid campaignId query) =
      ({ sockets := [(sid, userId)], rooms := [(roomKey campaignId, sid)] },
        [{ socket := sid, event := "joined_campaign",
           payload := .obj [("campaignId", .str campaignId)] }]) := by
  simp [step, Hub.empty, authenticate, htoken, hverify, joinCampaign, hq, Hub.join, List.lookup]

/-- The event that the notification callback builds for the notification of a stored scan
row. -/
theorem scanEventOf_notification (row : ScanRow) :
    scanEventOf (.obj [("campaign_id", .str row.campaign_id),
        ("qr_code_id", .str row.qr_code_id), ("data", row.toJVal)]) =
      some (.emit (roomKey row.campaign_id) "scan_event"
        (.obj [("type", .str "scan"),
          ("campaignId", .str row.campaign_id),
          ("qrCodeId", .str row.qr_code_id),
          ("timestamp", .str row.created_at),
          ("location", (match row.location_data with
            | some l => l.toJVal
            | none => JVal.null).getOpt "city"),
          ("device", ((row.metadata.getOpt "device").getOpt "type").orElse (.str "desktop"))])) := by
  simp [scanEventOf, JVal.get, JVal.lookupProp, List.lookup, ScanRow.toJVal, JVal.toText, roomKey,
    bind, Option.bind]

/-- The set-up never registers the notification callback: `pg` exports no `createClient`. -/
theorem setup_never_registers (connects : Bool) :
    setupPostgresNotifications pgExports connects = false := by
  have h : "createClient" ∉ pgExports := by decide
  simp [setupPostgresNotifications, h]

/-- On the server as started, a notification has no effect. -/
theorem listener_nil (connects : Bool) (msg : Notification) : listener connects msg = [] := by
  simp [listener, setup_never_registers]

/-- C10: a socket that connects with a valid token and joins campaign 42, owned by its
user, receives `joined_campaign` with campaignId 42; when a scan of a QR code of campaign
42 is then recorded, the socket receives exactly one `scan_event`, with campaignId 42,
counting the direct publish of the handler and whatever the change-feed listener
publishes for a notification: the handler publishes once and the listener, whose
set-up never registers the notification callback, publishes nothing. -/
theorem scenario_exactly_one (verify : String → Option Decoded) (sid : Nat)
    (token : String) (userId : Option String) (query : OwnershipQuery) (row : CampaignRow)
    (w : ScanWorld) (req : ScanRequest) (qrCode : QrCode) (scanEvent : ScanRow)
    (connects : Bool) (msg : Notification)
    (htoken : token ≠ "") (hverify : verify token = some { userId := userId })
    (hq : query "42" userId = .resolved (some row) none)
    (hl : w.lookupQr req.slug = .resolved (some qrCode) none)
    (hcamp : qrCode.campaigns.id = "42")
    (hexp : isExpired w qrCode = false)
    (hins : w.insertScan (scanInsertOf w req qrCode) = .resolved (some scanEvent) none) :
    (step verify (step verify Hub.empty (.connect sid (some token))).1
        (.join_campaign sid "42" query)).2 =
      [{ socket := sid, event := "joined_campaign",
         payload := .obj [("campaignId", .str "42")] }] ∧
    (received (deliveries (hubAfterJoin verify sid token "42" query) (recordScan w req))
      sid "scan_event").length = 1 ∧
    received (deliveries (hubAfterJoin verify sid token "42" query) (listener connects msg))
      sid "scan_event" = [] ∧
    (received (deliveries (hubAfterJoin verify sid token "42" query)
      (recordScan w req ++ listener connects msg)) sid "scan_event").length = 1 ∧
    ∀ p ∈ received (deliveries (hubAfterJoin verify sid token "42" query)
        (recordScan w req ++ listener connects msg)) sid "scan_event",
      p.get "campaignId" = some (.str "42") := by
  have hhub := hub_after_join verify sid token userId "42" query row htoken hverify hq
  have hh : hubAfterJoin verify sid token "42" query =
      { sockets := [(sid, userId)], rooms := [(roomKey "42", sid)] } := by
    unfold hubAfterJoin
    rw [hhub]
  have hrec := recordScan_trace_stored w req qrCode scanEvent hl hexp hins
  rw [hcamp] at hrec
  refine ⟨by rw [hhub], ?_, ?_, ?_, ?_⟩
  · rw [hh, hrec]
    simp [deliveries, received, Hub.publish, Hub.members]
  · rw [listener_nil]
    simp [deliveries, received]
  · rw [hh, hrec, listener_nil]
    simp [deliveries, received, Hub.publish, Hub.members]
  · rw [hh, hrec, listener_nil]
    simp [deliveries, received, Hub.publish, Hub.members, JVal.get, JVal.lookupProp, List.lookup]

/-- Instance of C10: user `u1` on socket 1, one scan of QR code `qr-1`, and the
notification of its stored row. -/
theorem scenario_exactly_one_witness :
    (received (deliveries (hubAfterJoin demoVerify 1 "valid-token" "42" demoQuery)
        (recordScan demoJsonScanWorld demoRequest ++
          listener true (scanNotification demoJsonRow)))
      1 "scan_event").length = 1 :=
  (scenario_exactly_one demoVerify 1 "valid-token" (some "u1") demoQuery { id := "42" }
    demoJsonScanWorld demoRequest (demoQr none) demoJsonRow true
    (scanNotification demoJsonRow) (by decide) rfl rfl rfl rfl rfl rfl).2.2.2.1

/-! ## Submissions: room isolation -/

/-- The trace of `recordSubmission` when the form resolves and the insert returns the
stored row. -/
theorem recordSubmission_trace_stored (w : SubmissionWorld) (req : SubmissionRequest)
    (form : Form) (submission : SubmissionRow)
    (hl : w.lookupForm req.formId = .resolved (some form) none)
    (hins : w.insertSubmission (submissionInsertOf req) = .resolved (some submission) none) :
    recordSubmission w req =
      [.insertSubmission (submissionInsertOf req) (.resolved (some submission) none),
        .emit (roomKey form.campaigns.id) "form_submission"
          (.obj [("type", .str "form_submission"),
            ("formId", .str req.formId),
            ("campaignId", .str form.campaigns.id),
            ("timestamp", .str submission.created_at),
            ("data", req.data)]),
        .respond 200
          (.obj [("success", .bool true), ("submissionId", .str submission.id)])] := by
  unfold recordSubmission
  rw [hl]
  simp only [hins]

/-- C11: a successful `recordSubmission` on a form of campaign `a` publishes to room
`campaign:a` only; the room key of another campaign `b` is a different key, and a socket
whose only rooms are `campaign:b` receives nothing from that submission. -/
theorem submission_room_isolation (w : SubmissionWorld) (req : SubmissionRequest)
    (form : Form) (submission : SubmissionRow)
    (hl : w.lookupForm req.formId = .resolved (some form) none)
    (hins : w.insertSubmission (submissionInsertOf req) = .resolved (some submission) none) :
    (∀ room event payload, Effect.emit room event payload ∈ recordSubmission w req →
      room = roomKey form.campaigns.id) ∧
    (∀ b, b ≠ form.campaigns.id → roomKey b ≠ roomKey form.campaigns.id) ∧
    (∀ (h : Hub) (sid : Nat) (b : String), b ≠ form.campaigns.id →
      (∀ room, (room, sid) ∈ h.rooms → room = roomKey b) →
      ∀ d ∈ deliveries h (recordSubmission w req), d.socket ≠ sid) := by
  have htrace := recordSubmission_trace_stored w req form submission hl hins
  refine ⟨?_, ?_, ?_⟩
  · intro room event payload hm
    rw [htrace] at hm
    simp at hm
    exact hm.1
  · intro b hb hkey
    exact hb (roomKey_injective _ _ hkey)
  · intro h sid b hb honly d hd hsock
    rw [htrace] at hd
    simp only [deliveries, List.flatMap_cons, List.flatMap_nil, List.nil_append,
      List.append_nil, Hub.publish, Hub.members, List.mem_map, List.mem_filter] at hd
    obtain ⟨s, ⟨m, ⟨hm, hroom⟩, hs⟩, rfl⟩ := hd
    simp only at hsock
    obtain ⟨r, s'⟩ := m
    simp only at hs hroom
    subst hs
    subst hsock
    have h1 : r = roomKey b := honly r hm
    have h2 : r = roomKey form.campaigns.id := of_decide_eq_true hroom
    exact hb (roomKey_injective _ _ (h1.symm.trans h2))

/-- Instance of C11: a submission to a form of campaign 7; socket 2 is only in
`campaign:8`. -/
theorem submission_room_isolation_witness :
    roomKey "8" ≠ roomKey "7" ∧
    ∀ d ∈ deliveries demoTwoRooms (recordSubmission demoSubmissionWorld demoSubmission),
      d.socket ≠ 2 :=
  ⟨(submission_room_isolation demoSubmissionWorld demoSubmission demoForm
      demoStoredSubmission rfl rfl).2.1 "8" (by decide),
    (submission_room_isolation demoSubmissionWorld demoSubmission demoForm
      demoStoredSubmission rfl rfl).2.2 demoTwoRooms 2 "8" (by decide)
      (by
        intro room hm
        simp only [demoTwoRooms, List.mem_cons, Prod.mk.injEq, List.mem_singleton,
          List.not_mem_nil, or_false] at hm
        rcases hm with ⟨_, h⟩ | ⟨h, _⟩
        · exact absurd h (by decide)
        · rw [h]; decide)⟩

/-! ## Change-feed listener against the handlers -/

/-- C12 (the code at the failing input): for the scan of the scenario the handler
publishes `scan_event` to room `campaign:42`; the set-up of the listener does not
register the notification callback, and for the notification that mirrors the stored
row the listener publishes nothing. -/
theorem listener_republishes_no_scan :
    recordScan demoJsonScanWorld demoRequest =
      [.insertScan (scanInsertOf demoJsonScanWorld demoRequest (demoQr none))
          (.resolved (some demoJsonRow) none),
        .emit "campaign:42" "scan_event"
          (.obj [("type", .str "scan"), ("qrCodeId", .str "qr-1"), ("campaignId", .str "42"),
            ("timestamp", .str "2024-05-01T10:00:00Z"), ("location", .str "Accra"),
            ("device", .str "mobile")]),
        .respond 200
          (.obj [("success", .bool true),
            ("userUuid", .str "00000000-0000-4000-8000-000000000001"),
            ("scanId", .str "scan-1")])] ∧
    setupPostgresNotifications pgExports true = false ∧
    listener true (scanNotification demoJsonRow) = [] ∧
    listener false (scanNotification demoJsonRow) = [] :=
  ⟨rfl, setup_never_registers true, listener_nil true _, listener_nil false _⟩

/-- C13 (the code at the failing input): for the submission of the scenario the handler
publishes `form_submission` to room `campaign:7` with type, formId, campaignId, timestamp
and data (the submitted answers); the set-up of the listener does not register the
notification callback, and for the notification that mirrors the stored row the listener
publishes nothing. -/
theorem listener_republishes_no_submission :
    recordSubmission demoJsonSubmissionWorld demoSubmission =
      [.insertSubmission (submissionInsertOf demoSubmission)
          (.resolved (some demoJsonSubmissionRow) none),
        .emit "campaign:7" "form_submission"
          (.obj [("type", .str "form_submission"), ("formId", .str "form-1"),
            ("campaignId", .str "7"), ("timestamp", .str "2024-05-01T10:00:05Z"),
            ("data", .obj [("email", .str "a@b.c")])]),
        .respond 200 (.obj [("success", .bool true), ("submissionId", .str "sub-1")])] ∧
    setupPostgresNotifications pgExports true = false ∧
    listener true (submissionNotification "7" demoJsonSubmissionRow) = [] ∧
    listener false (submissionNotification "7" demoJsonSubmissionRow) = [] :=
  ⟨rfl, setup_never_registers true, listener_nil true _, listener_nil false _⟩

/-- For every notification payload, the `form_submission` event that the notification
callback builds has no `data` property. -/
theorem formSubmissionOf_no_data (payload : JVal) (room event : String) (p : JVal)
    (h : formSubmissionOf payload = some (.emit room event p)) :
    p.get "data" = some .undefined := by
  unfold formSubmissionOf at h
  cases h1 : payload.get "campaign_id" with
  | none => simp [h1, bind, Option.bind] at h
  | some c =>
    cases h2 : payload.get "form_id" with
    | none => simp [h1, h2, bind, Option.bind] at h
    | some f =>
      cases h3 : payload.get "data" with
      | none => simp [h1, h2, h3, bind, Option.bind] at h
      | some d =>
        cases h4 : d.get "created_at" with
        | none => simp [h1, h2, h3, h4, bind, Option.bind] at h
        | some t =>
          simp only [h1, h2, h3, h4, bind, Option.bind, pure, Option.some.injEq,
            Effect.emit.injEq] at h
          obtain ⟨-, -, hp⟩ := h
          rw [← hp]
          simp [JVal.get, JVal.lookupProp, List.lookup]

/-! ## Connect: the authentication middleware -/

/-- Looking up a socket that was just appended to a list that did not hold it. -/
theorem lookup_append_new (sockets : List (Nat × Option String)) (sid : Nat)
    (userId : Option String) (h : sockets.lookup sid = none) :
    (sockets ++ [(sid, userId)]).lookup sid = some userId := by
  induction sockets with
  | nil => simp [List.lookup]
  | cons p rest ih =>
    obtain ⟨k, v⟩ := p
    by_cases hk : sid = k
    · subst hk
      simp [List.lookup] at h
    · have hb : (sid == k) = false := by simpa using hk
      simp only [List.lookup, hb, List.cons_append] at h ⊢
      exact ih h

/-- A socket that is not among the accepted sockets runs no join or leave handler:
whatever join and leave events it sends, the hub stays as it is. -/
theorem run_unregistered (verify : String → Option Decoded) (h : Hub) (sid : Nat)
    (hs : h.sockets.lookup sid = none) :
    ∀ events : List SocketEvent,
      (∀ e ∈ events, (∃ c q, e = .join_campaign sid c q) ∨ ∃ c, e = .leave_campaign sid c) →
      run verify h events = h := by
  intro events
  induction events with
  | nil => intro _; rfl
  | cons e es ih =>
    intro hall
    have he := hall e (List.mem_cons_self _ _)
    have hstep : (step verify h e).1 = h := by
      rcases he with ⟨c, q, rfl⟩ | ⟨c, rfl⟩ <;> simp [step, hs]
    simp only [run, hstep]
    exact ih (fun e' he' => hall e' (List.mem_cons_of_mem _ he'))

/-- C14: on a handshake with a new socket id, when the token is absent or empty or its
verification fails, the middleware answers with the error `Authentication error`, the
hub gains no socket and no user id is bound, and every later `join_campaign` or
`leave_campaign` of that socket runs no handler (no message, no change of the hub); when
the token verifies, the socket is accepted and bound to the `userId` of the token. -/
theorem connect_authentication (verify : String → Option Decoded) (h : Hub) (sid : Nat)
    (hnew : h.sockets.lookup sid = none) :
    (∀ token : Option String,
      (token = none ∨ token = some "" ∨ ∃ t, token = some t ∧ verify t = none) →
      authenticate verify token = .error "Authentication error" ∧
      step verify h (.connect sid token) = (h, []) ∧
      (step verify h (.connect sid token)).1.sockets.lookup sid = none ∧
      (∀ campaignId query,
        step verify (step verify h (.connect sid token)).1
          (.join_campaign sid campaignId query) = (h, [])) ∧
      (∀ campaignId,
        step verify (step verify h (.connect sid token)).1
          (.leave_campaign sid campaignId) = (h, [])) ∧
      ∀ events : List SocketEvent,
        (∀ e ∈ events, (∃ c q, e = .join_campaign sid c q) ∨ ∃ c, e = .leave_campaign sid c) →
        run verify (step verify h (.connect sid token)).1 events = h) ∧
    (∀ (t : String) (decoded : Decoded), t ≠ "" → verify t = some decoded →
      authenticate verify (some t) = .next decoded.userId ∧
      step verify h (.connect sid (some t)) =
        ({ h with sockets := h.sockets ++ [(sid, decoded.userId)] }, []) ∧
      (step verify h (.connect sid (some t))).1.sockets.lookup sid = some decoded.userId) := by
  constructor
  · intro token htoken
    have hauth : authenticate verify token = .error "Authentication error" := by
      rcases htoken with rfl | rfl | ⟨t, rfl, hv⟩
      · rfl
      · rfl
      · unfold authenticate
        by_cases ht : t = ""
        · simp [ht]
        · simp [ht, hv]
    have hstep : step verify h (.connect sid token) = (h, []) := by
      simp [step, hnew, hauth]
    refine ⟨hauth, hstep, ?_, ?_, ?_, ?_⟩
    · rw [hstep]; exact hnew
    · intro campaignId query
      rw [hstep]
      simp [step, hnew]
    · intro campaignId
      rw [hstep]
      simp [step, hnew]
    · intro events hall
      rw [hstep]
      exact run_unregistered verify h sid hnew events hall
  · intro t decoded ht hv
    have hauth : authenticate verify (some t) = .next decoded.userId := by
      simp [authenticate, ht, hv]
    have hstep : step verify h (.connect sid (some t)) =
        ({ h with sockets := h.sockets ++ [(sid, decoded.userId)] }, []) := by
      simp [step, hnew, hauth]
    refine ⟨hauth, hstep, ?_⟩
    rw [hstep]
    exact lookup_append_new h.sockets sid decoded.userId hnew

/-- Instance of C14: on the empty hub, a forged token is refused, and the valid token
binds socket 1 to user `u1`. -/
theorem connect_authentication_witness :
    step demoVerify Hub.empty (.connect 1 (some "forged-token")) = (Hub.empty, []) ∧
    step demoVerify Hub.empty (.connect 1 (some "valid-token")) =
      ({ sockets := [(1, some "u1")], rooms := [] }, []) :=
  ⟨((connect_authentication demoVerify Hub.empty 1 rfl).1 (some "forged-token")
      (Or.inr (Or.inr ⟨"forged-token", rfl, rfl⟩))).2.1,
    ((connect_authentication demoVerify Hub.empty 1 rfl).2 "valid-token"
      { userId := some "u1" } (by decide) rfl).2.1⟩

/-! ## Submissions: not found, insert failure, success -/

/-- C15 (amended): when the form resolves and the `form_submissions` insert returns an
error, `recordSubmission` answers 400 with the error message of the store as body, and
its trace holds no emit. -/
theorem recordSubmission_insert_error (w : SubmissionWorld) (req : SubmissionRequest)
    (form : Form) (data : Option SubmissionRow) (message : String)
    (hl : w.lookupForm req.formId = .resolved (some form) none)
    (hins : w.insertSubmission (submissionInsertOf req) = .resolved data (some message)) :
    recordSubmission w req =
      [.insertSubmission (submissionInsertOf req) (.resolved data (some message)),
        .respond 400 (errorBody (.str message))] ∧
    ∀ room event payload, Effect.emit room event payload ∉ recordSubmission w req := by
  have h : recordSubmission w req =
      [.insertSubmission (submissionInsertOf req) (.resolved data (some message)),
        .respond 400 (errorBody (.str message))] := by
    unfold recordSubmission
    rw [hl]
    simp only [hins]
  refine ⟨h, ?_⟩
  intro room event payload hm
  rw [h] at hm
  simp at hm

/-- Instance of C15 (amended): the store refuses the insert with a constraint error. -/
theorem recordSubmission_insert_error_witness :
    recordSubmission demoRefusingWorld demoSubmission =
      [.insertSubmission (submissionInsertOf demoSubmission)
          (.resolved none (some "duplicate key value violates unique constraint")),
        .respond 400
          (errorBody (.str "duplicate key value violates unique constraint"))] :=
  (recordSubmission_insert_error demoRefusingWorld demoSubmission demoForm none
    "duplicate key value violates unique constraint" rfl rfl).1

/-- C15 (as stated, refuted): the form resolves and the insert returns an error; the
response has status 400, not 500, and its body is the error message of the store, not a
generic message. -/
theorem submission_error_exposes_store_message :
    recordSubmission demoRefusingWorld demoSubmission =
      [.insertSubmission (submissionInsertOf demoSubmission)
          (.resolved none (some "duplicate key value violates unique constraint")),
        .respond 400
          (.obj [("error", .str "duplicate key value violates unique constraint")])] ∧
    (∀ body, Effect.respond 500 body ∉ recordSubmission demoRefusingWorld demoSubmission) := by
  have h : recordSubmission demoRefusingWorld demoSubmission =
      [.insertSubmission (submissionInsertOf demoSubmission)
          (.resolved none (some "duplicate key value violates unique constraint")),
        .respond 400
          (.obj [("error", .str "duplicate key value violates unique constraint")])] := rfl
  refine ⟨h, ?_⟩
  intro body hm
  rw [h] at hm
  simp at hm

/-- C16: when the form lookup returns an error or no row, `recordSubmission` answers 404
and the response is its only effect (no insert, no emit); when the form resolves and the
insert returns the stored row, the trace is the insert, one emit and the answer success
with the id of the stored row as submissionId, and the inserted record has the requested
formId as `form_id` (and so has a stored row that holds the inserted columns). -/
theorem recordSubmission_notFound_success (w : SubmissionWorld) (req : SubmissionRequest) :
    (∀ data error, w.lookupForm req.formId = .resolved data error →
      (error ≠ none ∨ data = none) →
      recordSubmission w req = [.respond 404 (errorBody (.str "Form not found"))]) ∧
    (∀ form submission, w.lookupForm req.formId = .resolved (some form) none →
      w.insertSubmission (submissionInsertOf req) = .resolved (some submission) none →
      recordSubmission w req =
        [.insertSubmission (submissionInsertOf req) (.resolved (some submission) none),
          .emit (roomKey form.campaigns.id) "form_submission"
            (.obj [("type", .str "form_submission"),
              ("formId", .str req.formId),
              ("campaignId", .str form.campaigns.id),
              ("timestamp", .str submission.created_at),
              ("data", req.data)]),
          .respond 200
            (.obj [("success", .bool true), ("submissionId", .str submission.id)])] ∧
      (submissionInsertOf req).form_id = req.formId ∧
      (submission.toSubmissionInsert = submissionInsertOf req →
        submission.form_id = req.formId)) := by
  constructor
  · intro data error hl h
    unfold recordSubmission
    rw [hl]
    cases error <;> cases data <;> first | rfl | simp at h
  · intro form submission hl hins
    refine ⟨recordSubmission_trace_stored w req form submission hl hins, rfl, ?_⟩
    · intro hstored
      have := congrArg SubmissionInsert.form_id hstored
      simpa [submissionInsertOf] using this

/-- Instance of C16: an unknown form, and the stored submission of the scenario. -/
theorem recordSubmission_notFound_success_witness :
    recordSubmission demoNoFormWorld demoSubmission =
      [.respond 404 (errorBody (.str "Form not found"))] ∧
    recordSubmission demoSubmissionWorld demoSubmission =
      [.insertSubmission (submissionInsertOf demoSubmission)
          (.resolved (some demoStoredSubmission) none),
        .emit "campaign:7" "form_submission"
          (.obj [("type", .str "form_submission"), ("formId", .str "form-1"),
            ("campaignId", .str "7"), ("timestamp", .str "2024-05-01T10:00:05Z"),
            ("data", .obj [("email", .str "a@b.c")])]),
        .respond 200 (.obj [("success", .bool true), ("submissionId", .str "sub-1")])] ∧
    demoStoredSubmission.form_id = "form-1" :=
  ⟨(recordSubmission_notFound_success demoNoFormWorld demoSubmission).1 none
      (some "no rows") rfl (Or.inr rfl),
    ((recordSubmission_notFound_success demoSubmissionWorld demoSubmission).2 demoForm
      demoStoredSubmission rfl rfl).1,
    ((recordSubmission_notFound_success demoSubmissionWorld demoSubmission).2 demoForm
      demoStoredSubmission rfl rfl).2.2 rfl⟩

/-! ## Analytics: conservation of counts -/

/-- A name that a plain object inherits has no hyphen. -/
theorem inherited_no_hyphen (key : String) (h : inheritedText key ≠ none) :
    '-' ∉ key.data := by
  unfold inheritedText at h
  by_cases h1 : key = "__proto__"
  · subst h1; decide
  · by_cases h2 : key = "constructor"
    · subst h2; decide
    · by_cases h3 : key ∈ inheritedFunctions
      · simp only [inheritedFunctions, List.mem_cons, List.mem_singleton, List.not_mem_nil,
          or_false] at h3
        rcases h3 with h | h | h | h | h | h | h | h | h | h <;> (subst h; decide)
      · simp [h1, h2, h3] at h

/-- No time key is a name that a plain object inherits. -/
theorem timeKey_not_inherited (format : String) (date : Option LocalTime) :
    inheritedText (timeKey format date) = none := by
  by_contra h
  have hno := inherited_no_hyphen _ h
  apply hno
  unfold timeKey
  split <;> simp [String.data_append]

/-- One increment of a key that is not inherited raises the sum of the counters by one. -/
theorem total_increment (key : String) (hkey : inheritedText key = none) :
    ∀ (acc : Counts) (t : Int), acc.total = some t → (increment acc key).total = some (t + 1) := by
  have hproto : key ≠ "__proto__" := by
    intro h
    subst h
    simp [inheritedText] at hkey
  intro acc
  induction acc with
  | nil =>
    intro t ht
    simp only [Counts.total, Option.some.injEq] at ht
    subst ht
    simp [increment, Counts.read, Counts.write, JVal.lookupProp, List.lookup, hkey, hproto,
      orZeroPlusOne, JVal.setProp, Counts.total]
  | cons p rest ih =>
    intro t ht
    obtain ⟨k, v⟩ := p
    cases v with
    | num n =>
      simp only [Counts.total] at ht
      cases hr : Counts.total rest with
      | none => simp [hr] at ht
      | some t' =>
        simp only [hr, Option.map_some', Option.some.injEq] at ht
        subst ht
        by_cases hk : k = key
        · subst hk
          simp [increment, Counts.read, Counts.write, JVal.lookupProp, List.lookup, hproto,
            orZeroPlusOne, JVal.setProp, Counts.total, hr]
          omega
        · have hb : (key == k) = false := by simpa using fun h' => hk h'.symm
          have hrest := ih t' hr
          simp only [increment, Counts.read, Counts.write, JVal.lookupProp, List.lookup, hb,
            hproto, if_false, JVal.setProp, hk] at hrest ⊢
          simp only [Counts.total, hrest, Option.map_some', Option.some.injEq]
          omega
    | undefined => simp [Counts.total] at ht
    | null => simp [Counts.total] at ht
    | bool b => simp [Counts.total] at ht
    | str s => simp [Counts.total] at ht
    | arr xs => simp [Counts.total] at ht
    | obj kvs => simp [Counts.total] at ht

/-- Counting a list of keys, none of them inherited, into a table raises the sum by the
length of the list. -/
theorem total_foldl_increment {α : Type} (key : α → String) (events : List α)
    (hkeys : ∀ e ∈ events, inheritedText (key e) = none) :
    ∀ (acc : Counts) (t : Int), acc.total = some t →
      (events.foldl (fun groups event => increment groups (key event)) acc).total =
        some (t + events.length) := by
  induction events with
  | nil => intro acc t ht; simpa using ht
  | cons e es ih =>
    intro acc t ht
    simp only [List.foldl_cons, List.length_cons]
    have h1 := total_increment (key e) (hkeys e (List.mem_cons_self _ _)) acc t ht
    have h2 := ih (fun e' he' => hkeys e' (List.mem_cons_of_mem _ he')) _ _ h1
    rw [h2]
    push_cast
    congr 1
    omega

/-- A set built from a list has at most as many members as the list has elements. -/
theorem setAdd_foldl_length (values : List JVal) :
    ∀ members : List JVal,
      (values.foldl setAdd members).length ≤ members.length + values.length := by
  induction values with
  | nil => intro members; simp
  | cons v vs ih =>
    intro members
    simp only [List.foldl_cons, List.length_cons]
    have h := ih (setAdd members v)
    have h2 : (setAdd members v).length ≤ members.length + 1 := by
      unfold setAdd
      split <;> simp
    omega

/-- The double nearest to zero is zero, and so is the rate without scans. -/
theorem conversionRateOf_zero (totalSubmissions : Nat) :
    conversionRateOf totalSubmissions 0 = 0 := by
  simp [conversionRateOf, doubleMul, doubleDiv, roundToDouble, mathRound]
  norm_num

/-- C17 (amended): `calculateAnalytics` conserves counts: `totals.scans` is the number of
scan events; when no device key of the scan events is a name that a plain object
inherits (such as `__proto__`, `constructor`, `toString`) the values of
`breakdowns.devices` sum to `totals.scans`, and when no city key is such a name the
values of `breakdowns.locations` sum to `totals.scans`; the values of `timeline.scans`
sum to the number of scan events and those of `timeline.submissions` to the number of
submissions; `totals.uniqueUsers` is at most `totals.scans`; and the conversion rate is 0
when there are no scans. -/
theorem calculateAnalytics_conserves_counts (localTime : String → Option LocalTime)
    (scanEvents : List ScanRow) (formSubmissions : List SubmissionRow) (timeframe : String) :
    (calculateAnalytics localTime scanEvents formSubmissions timeframe).totals.scans =
      scanEvents.length ∧
    ((∀ e ∈ scanEvents, inheritedText (deviceKey e) = none) →
      (calculateAnalytics localTime scanEvents formSubmissions
        timeframe).breakdowns.devices.total =
      some ((calculateAnalytics localTime scanEvents formSubmissions
        timeframe).totals.scans : Int)) ∧
    ((∀ e ∈ scanEvents, inheritedText (cityKey e) = none) →
      (calculateAnalytics localTime scanEvents formSubmissions
        timeframe).breakdowns.locations.total =
      some ((calculateAnalytics localTime scanEvents formSubmissions
        timeframe).totals.scans : Int)) ∧
    (calculateAnalytics localTime scanEvents formSubmissions timeframe).timeline.scans.total =
      some (scanEvents.length : Int) ∧
    (calculateAnalytics localTime scanEvents formSubmissions
      timeframe).timeline.submissions.total = some (formSubmissions.length : Int) ∧
    (calculateAnalytics localTime scanEvents formSubmissions timeframe).totals.uniqueUsers ≤
      (calculateAnalytics localTime scanEvents formSubmissions timeframe).totals.scans ∧
    (scanEvents = [] →
      (calculateAnalytics localTime scanEvents formSubmissions timeframe).totals.conversionRate
        = 0) := by
  refine ⟨rfl, ?_, ?_, ?_, ?_, ?_, ?_⟩
  · intro hkeys
    simp only [calculateAnalytics]
    rw [total_foldl_increment deviceKey scanEvents hkeys [] 0 rfl]
    simp
  · intro hkeys
    simp only [calculateAnalytics]
    rw [total_foldl_increment cityKey scanEvents hkeys [] 0 rfl]
    simp
  · simp only [calculateAnalytics, groupByTimePeriod]
    rw [total_foldl_increment _ scanEvents (fun e _ => timeKey_not_inherited _ _) [] 0 rfl]
    simp
  · simp only [calculateAnalytics, groupByTimePeriod]
    rw [total_foldl_increment _ formSubmissions (fun e _ => timeKey_not_inherited _ _) [] 0 rfl]
    simp
  · simp only [calculateAnalytics, setSize]
    have h := setAdd_foldl_length (scanEvents.map (fun e => e.user_uuid)) []
    simpa using h
  · intro h
    subst h
    simp only [calculateAnalytics, List.length_nil]
    exact conversionRateOf_zero _

/-- Instance of C17 (amended): the two scans of the scenario, whose device keys are
`mobile` and `desktop` and whose city keys are `Accra` and `Unknown`; and no scan with
one submission. -/
theorem calculateAnalytics_conserves_counts_witness :
    (calculateAnalytics demoLocalTime demoScans [demoJsonSubmissionRow]
      "7d").breakdowns.devices.total = some 2 ∧
    (calculateAnalytics demoLocalTime demoScans [demoJsonSubmissionRow]
      "7d").breakdowns.locations.total = some 2 ∧
    (calculateAnalytics demoLocalTime [] [demoJsonSubmissionRow] "7d").totals.conversionRate
      = 0 :=
  ⟨(calculateAnalytics_conserves_counts demoLocalTime demoScans [demoJsonSubmissionRow]
      "7d").2.1
      (by
        intro e he
        simp only [demoScans, List.mem_cons, List.mem_singleton, List.not_mem_nil,
          or_false] at he
        rcases he with rfl | rfl <;>
          simp [deviceKey, demoJsonRow, JVal.getOpt, JVal.lookupProp, List.lookup,
            JVal.orElse, JVal.truthy, JVal.toText, inheritedText, inheritedFunctions]),
    (calculateAnalytics_conserves_counts demoLocalTime demoScans [demoJsonSubmissionRow]
      "7d").2.2.1
      (by
        intro e he
        simp only [demoScans, List.mem_cons, List.mem_singleton, List.not_mem_nil,
          or_false] at he
        rcases he with rfl | rfl <;>
          simp [cityKey, cityOf, demoJsonRow, JVal.orElse, JVal.truthy, JVal.toText,
            inheritedText, inheritedFunctions]),
    (calculateAnalytics_conserves_counts demoLocalTime [] [demoJsonSubmissionRow]
      "7d").2.2.2.2.2.2 rfl⟩

/-- C17 (as stated, refuted): for one scan whose device type is `__proto__` the device
breakdown stays empty, so its values sum to 0 while `totals.scans` is 1; for one scan
whose device type is `constructor` the breakdown holds a text, not a count. -/
theorem inherited_key_breaks_count :
    (calculateAnalytics demoLocalTime [protoScan] [] "7d").totals.scans = 1 ∧
    (calculateAnalytics demoLocalTime [protoScan] [] "7d").breakdowns.devices = [] ∧
    (calculateAnalytics demoLocalTime [protoScan] [] "7d").breakdowns.devices.total ≠
      some ((calculateAnalytics demoLocalTime [protoScan] [] "7d").totals.scans : Int) ∧
    (calculateAnalytics demoLocalTime [constructorScan] [] "7d").breakdowns.devices =
      [("constructor", .str "function Object() \x7b [native code] \x7d1")] ∧
    (calculateAnalytics demoLocalTime [constructorScan] [] "7d").breakdowns.devices.total ≠
      some ((calculateAnalytics demoLocalTime [constructorScan] [] "7d").totals.scans : Int) := by
  have hp : (calculateAnalytics demoLocalTime [protoScan] [] "7d").breakdowns.devices = [] := by
    simp [calculateAnalytics, protoScan, deviceKey, JVal.getOpt, JVal.lookupProp, List.lookup,
      JVal.orElse, JVal.truthy, JVal.toText, increment, Counts.read, Counts.write,
      inheritedText]
  have hc : (calculateAnalytics demoLocalTime [constructorScan] [] "7d").breakdowns.devices =
      [("constructor", .str "function Object() \x7b [native code] \x7d1")] := by
    simp [calculateAnalytics, constructorScan, deviceKey, JVal.getOpt, JVal.lookupProp,
      List.lookup, JVal.orElse, JVal.truthy, JVal.toText, increment, Counts.read,
      Counts.write, inheritedText, orZeroPlusOne, JVal.setProp]
  refine ⟨rfl, hp, ?_, hc, ?_⟩
  · rw [hp]
    simp [Counts.total, calculateAnalytics]
  · rw [hc]
    simp [Counts.total]

/-- The analytics of the two scans of the scenario over seven days and over one day. -/
theorem calculateAnalytics_demo :
    (calculateAnalytics demoLocalTime demoScans [demoJsonSubmissionRow]
      "7d").breakdowns.devices = [("mobile", .num 1), ("desktop", .num 1)] ∧
    (calculateAnalytics demoLocalTime demoScans [demoJsonSubmissionRow]
      "7d").breakdowns.locations = [("Accra", .num 1), ("Unknown", .num 1)] ∧
    (calculateAnalytics demoLocalTime demoScans [demoJsonSubmissionRow] "7d").timeline.scans =
      [("2024-05-01", .num 1), ("NaN-NaN-NaN", .num 1)] ∧
    (calculateAnalytics demoLocalTime demoScans [demoJsonSubmissionRow] "24h").timeline.scans =
      [("2024-05-01 10:00", .num 1), ("NaN-NaN-NaN NaN:00", .num 1)] ∧
    (calculateAnalytics demoLocalTime demoScans [demoJsonSubmissionRow] "7d").totals.uniqueUsers
      = 1 := by
  refine ⟨?_, ?_, ?_, ?_, by decide⟩
  · simp [calculateAnalytics, demoScans, demoJsonRow, deviceKey, increment, Counts.read,
      Counts.write, orZeroPlusOne, inheritedText, inheritedFunctions, JVal.getOpt,
      JVal.orElse, JVal.truthy, JVal.toText, JVal.setProp, JVal.lookupProp, List.lookup]
  · simp [calculateAnalytics, demoScans, demoJsonRow, cityKey, cityOf, increment, Counts.read,
      Counts.write, orZeroPlusOne, inheritedText, inheritedFunctions,
      JVal.orElse, JVal.truthy, JVal.toText, JVal.setProp, JVal.lookupProp, List.lookup]
  · have h1 : timeKey "day" (demoLocalTime "2024-05-01T10:00:00Z") = "2024-05-01" := by decide
    have h2 : timeKey "day" (demoLocalTime "not a date") = "NaN-NaN-NaN" := by decide
    simp [calculateAnalytics, groupByTimePeriod, demoScans, demoJsonRow, h1, h2, increment,
      Counts.read, Counts.write, orZeroPlusOne, inheritedText, inheritedFunctions,
      JVal.setProp, JVal.lookupProp, List.lookup]
  · have h1 : timeKey "hour" (demoLocalTime "2024-05-01T10:00:00Z") = "2024-05-01 10:00" := by
      decide
    have h2 : timeKey "hour" (demoLocalTime "not a date") = "NaN-NaN-NaN NaN:00" := by decide
    simp [calculateAnalytics, groupByTimePeriod, demoScans, demoJsonRow, h1, h2, increment,
      Counts.read, Counts.write, orZeroPlusOne, inheritedText, inheritedFunctions,
      JVal.setProp, JVal.lookupProp, List.lookup]

/-- The exponent of a positive rational between two consecutive powers of two. -/
theorem log_two_eq (r : ℚ) (e : ℤ) (hr : 0 < r) (h1 : (2 : ℚ) ^ e ≤ r)
    (h2 : r < (2 : ℚ) ^ (e + 1)) : Int.log 2 r = e := by
  have hb : 1 < (2 : ℕ) := by norm_num
  have ha : e ≤ Int.log 2 r := (Int.zpow_le_iff_le_log hb hr).mp (by exact_mod_cast h1)
  have hc : Int.log 2 r < e + 1 := (Int.lt_zpow_iff_log_lt hb hr).mp (by exact_mod_cast h2)
  omega

/-- The double nearest to a positive rational of known exponent. -/
theorem roundToDouble_of_exponent (q : ℚ) (e : ℤ) (hq : 0 < q) (h1 : (2 : ℚ) ^ e ≤ q)
    (h2 : q < (2 : ℚ) ^ (e + 1)) :
    roundToDouble q = (roundHalfEven (q / (2 : ℚ) ^ (e - 52)) : ℚ) * (2 : ℚ) ^ (e - 52) := by
  have hlog : Int.log 2 |q| = e := by
    rw [abs_of_pos hq]
    exact log_two_eq q e hq h1 h2
  unfold roundToDouble
  simp only [hlog, hq.ne', if_false, not_lt.mpr hq.le]
  rw [abs_of_pos hq]

/-- The rate for 23 submissions over 160 scans: the doubles round `14.375` down, and the
rate is the double nearest to `14.37`. -/
theorem conversionRateOf_23_160 :
    doubleMul (doubleDiv 23 160) 100 < 14375 / 1000 ∧
    conversionRateOf 23 160 = roundToDouble (1437 / 100) := by
  have hd : doubleDiv 23 160 = 2589569785738035 / 18014398509481984 := by
    unfold doubleDiv
    rw [roundToDouble_of_exponent _ (-3) (by norm_num) (by norm_num) (by norm_num)]
    norm_num [roundHalfEven]
  have hm : doubleMul (2589569785738035 / 18014398509481984) 100 =
      8092405580431359 / 562949953421312 := by
    unfold doubleMul
    rw [roundToDouble_of_exponent _ 3 (by norm_num) (by norm_num) (by norm_num)]
    norm_num [roundHalfEven]
  have hm2 : mathRound (doubleMul (8092405580431359 / 562949953421312) 100) = 1437 := by
    unfold doubleMul
    rw [roundToDouble_of_exponent _ 10 (by norm_num) (by norm_num) (by norm_num)]
    norm_num [roundHalfEven, mathRound]
  refine ⟨by rw [hd, hm]; norm_num, ?_⟩
  simp only [conversionRateOf, Nat.cast_ofNat, gt_iff_lt, Nat.ofNat_pos, if_true, hd, hm, hm2]
  norm_num [doubleDiv]

end ScanServer
